import Mathlib

/-!
# ImageLayerD3D9: image-to-texture materialisation and caching

A shallow embedding of `gfx/layers/d3d9/ImageLayerD3D9.cpp`, followed by the
properties proved about it.

The Direct3D 9 device is an environment the file talks to.  It is modelled by
an explicit `World`:

* `calls` is the log of COM calls issued so far, oldest first;
* `creates` and `locks` are the answers the driver will give to the upcoming
  `CreateTexture` and `LockRect` calls (an exhausted list answers "failed");
* `bits` is the level-0 storage of every texture, addressed by the signed
  byte offset from the pointer a lock hands out;
* `nextId` is the identity the next created COM object will receive;
* `failures` counts the `ReportFailure` calls made on the layer manager.

Conventions of the embedding:

* a function of the file returns a `Res`: a value in a new world, or a fault
  (a null pointer dereferenced, an assertion that fired) in the world reached;
* signed C++ `int` values (`aStride`, `Pitch`, the plane strides) are
  integers; the `int` products `lockedRect.Pitch * y` and `aStride * y` wrap
  into the 32-bit range (`wrapInt32`), the unsigned computation
  `uint32_t width ... width *= 4` wraps modulo `2 ^ 32`, and pointer
  arithmetic (`dest += Pitch`) does not wrap;
* a `float` is the rational number it denotes, and a `float` operation rounds
  the exact result to the nearest binary32 value, ties to even
  (`roundBinary32`);
* image dimensions (`gfxIntSize`, declared outside the file) are natural
  numbers;
* source pixel buffers are read-only byte maps, separate from texture storage;
* `UpdateSurface` and `GetSurfaceLevel(0)`, whose results the file never looks
  at, always take effect.
-/

namespace ImageLayerD3D9

/-! ## Data model -/

/-- Memory seen through a pointer: the byte stored at a signed offset. -/
abbrev Bytes := Int → Nat

/-- The `_D3DFORMAT` values the file names, and every other one by its code. -/
inductive D3DFORMAT where
  | D3DFMT_A8
  | D3DFMT_A8R8G8B8
  | D3DFMT_X8R8G8B8
  | D3DFMT_L8
  | D3DFMT_OTHER (code : Nat)
  deriving DecidableEq, Repr

/-- The memory pools the file allocates from. -/
inductive D3DPOOL where
  | D3DPOOL_DEFAULT
  | D3DPOOL_MANAGED
  | D3DPOOL_SYSTEMMEM
  deriving DecidableEq, Repr

/-- The `gfxImageFormat` values: `ImageFormatA8` is the only one the file tests for. -/
inductive gfxImageFormat where
  | ImageFormatARGB32
  | ImageFormatRGB24
  | ImageFormatA8
  | ImageFormatOther (code : Nat)
  deriving DecidableEq, Repr

/-- The usage flag `D3DUSAGE_RENDERTARGET` (its numeric value in `d3d9types.h`). -/
def D3DUSAGE_RENDERTARGET : Nat := 1

/-- A pair of dimensions (`gfxIntSize`). -/
structure gfxIntSize where
  width : Nat
  height : Nat
  deriving DecidableEq, Repr

/-- A texture object: its COM identity, the device it lives on (what `GetDevice`
reports) and the arguments it was created with. -/
structure IDirect3DTexture9 where
  id : Nat
  dev : Nat
  Width : Nat
  Height : Nat
  Usage : Nat
  Format : D3DFORMAT
  Pool : D3DPOOL
  shareHandle : Option Nat
  deriving DecidableEq, Repr

/-- The out-parameter of `LockRect`: `pBits` is `none` for a null pointer and
otherwise names the storage it points into. -/
structure D3DLOCKED_RECT where
  pBits : Option Nat
  Pitch : Int
  deriving DecidableEq, Repr

/-- What the driver answers to one `LockRect` call. -/
inductive LockAnswer where
  | failed
  | locked (nonNull : Bool) (Pitch : Int)
  deriving DecidableEq, Repr

/-- The COM calls the file issues. -/
inductive Call where
  | QueryInterface (dev : Nat)
  | CreateTexture (dev W H Levels Usage : Nat) (Format : D3DFORMAT) (Pool : D3DPOOL)
      (share : Option Nat)
  | GetSurfaceLevel (tex : Nat)
  | LockRect (tex : Nat)
  | UnlockRect (tex : Nat)
  | UpdateSurface (dev src dst : Nat)
  | GetDevice (tex : Nat)
  deriving DecidableEq, Repr

/-- The calls that upload or allocate: `CreateTexture`, `LockRect`, `UpdateSurface`. -/
def Call.isUpload : Call → Bool
  | .CreateTexture .. => true
  | .LockRect _ => true
  | .UpdateSurface .. => true
  | _ => false

/-- The state of the driver and of texture memory. -/
structure World where
  calls : List Call
  creates : List Bool
  locks : List LockAnswer
  nextId : Nat
  bits : Nat → Bytes
  failures : Nat

/-- What is fixed outside the file: the capability class of each device (does
`QueryInterface(IID_IDirect3DDevice9Ex)` succeed), whether `MOZ_ASSERT` is
compiled in (it is a debug-build check), and the indeterminate value an
uninitialised `D3DLOCKED_RECT` local holds. -/
structure Env where
  isEx : Nat → Bool
  debug : Bool
  uninit : D3DLOCKED_RECT

/-- Why a run stops instead of returning. -/
inductive Fault where
  | nullDeref
  | assertion
  deriving DecidableEq, Repr

/-- The result of running a function of the file: it returns a value in a new
world, or the process stops at a fault. -/
inductive Res (α : Type) where
  | ok (val : α) (w : World)
  | crash (f : Fault) (w : World)

/-- The returned value, when the run returned. -/
def Res.val? {α : Type} : Res α → Option α
  | .ok a _ => some a
  | .crash _ _ => none

/-- The world the run ended in. -/
def Res.world {α : Type} : Res α → World
  | .ok _ w => w
  | .crash _ w => w

/-- The fault the run stopped at, when it did. -/
def Res.fault? {α : Type} : Res α → Option Fault
  | .ok _ _ => none
  | .crash f _ => some f

/-! ## The device -/

/-- The call `aDevice->QueryInterface(IID_IDirect3DDevice9Ex, ...)`: is the device of the
extended class. -/
def QueryInterface (env : Env) (aDevice : Nat) (w : World) : Bool × World :=
  (env.isEx aDevice, { w with calls := w.calls ++ [Call.QueryInterface aDevice] })

/-- The call `aDevice->CreateTexture(...)`: on success a fresh texture of that device, on
failure a null pointer. -/
def CreateTexture (aDevice W H Levels Usage : Nat) (Format : D3DFORMAT) (Pool : D3DPOOL)
    (share : Option Nat) (w : World) : Option IDirect3DTexture9 × World :=
  let w1 : World :=
    { w with calls := w.calls ++ [Call.CreateTexture aDevice W H Levels Usage Format Pool share],
             creates := w.creates.tail }
  match w.creates.head? with
  | some true =>
    (some { id := w.nextId, dev := aDevice, Width := W, Height := H, Usage := Usage,
            Format := Format, Pool := Pool, shareHandle := share },
     { w1 with nextId := w.nextId + 1 })
  | _ => (none, w1)

/-- The call `GetSurfaceLevel(0, ...)` on a texture: the level-0 surface shares the
texture's storage, so only the call is recorded. -/
def GetSurfaceLevel (t : IDirect3DTexture9) (w : World) : World :=
  { w with calls := w.calls ++ [Call.GetSurfaceLevel t.id] }

/-- The call `LockRect` on a texture or its level-0 surface: the first component is
`SUCCEEDED(hr)`; a failed call leaves the out-parameter as it was. -/
def LockRect (t : IDirect3DTexture9) (rect : D3DLOCKED_RECT) (w : World) :
    Bool × D3DLOCKED_RECT × World :=
  let w1 : World := { w with calls := w.calls ++ [Call.LockRect t.id], locks := w.locks.tail }
  match w.locks.head? with
  | some (.locked nonNull p) =>
    (true, { pBits := if nonNull then some t.id else none, Pitch := p }, w1)
  | _ => (false, rect, w1)

/-- The call `UnlockRect` on a texture or its level-0 surface. -/
def UnlockRect (t : IDirect3DTexture9) (w : World) : World :=
  { w with calls := w.calls ++ [Call.UnlockRect t.id] }

/-- The call `aDevice->UpdateSurface(src, NULL, dst, NULL)`: the whole staging surface is
transferred into the destination. -/
def UpdateSurface (aDevice : Nat) (src dst : IDirect3DTexture9) (w : World) : World :=
  { w with calls := w.calls ++ [Call.UpdateSurface aDevice src.id dst.id],
           bits := fun i => if i = dst.id then w.bits src.id else w.bits i }

/-- The copy `memcpy(dest + destOff, src + srcOff, n)`. -/
def memcpy (dest : Bytes) (destOff : Int) (src : Bytes) (srcOff : Int) (n : Nat) : Bytes :=
  fun a => if destOff ≤ a ∧ a < destOff + n then src (srcOff + (a - destOff)) else dest a

/-! ## `D3dFormatForGfxFormat` and `DataToTexture` -/

/-- Lines 22-30. -/
def D3dFormatForGfxFormat (aFormat : gfxImageFormat) : D3DFORMAT :=
  if aFormat = gfxImageFormat.ImageFormatA8 then D3DFORMAT.D3DFMT_A8
  else D3DFORMAT.D3DFMT_A8R8G8B8

/-- Lines 86-89: `uint32_t width = aSize.width; if (aFormat == D3DFMT_A8R8G8B8) width *= 4;`. -/
def rowWidth (aSize : gfxIntSize) (aFormat : D3DFORMAT) : Nat :=
  let width := aSize.width % 2 ^ 32
  if aFormat = D3DFORMAT.D3DFMT_A8R8G8B8 then (width * 4) % 2 ^ 32 else width

/-- The value a 32-bit `int` computation yields: the mathematical result
wrapped into the range from `-2 ^ 31` up to `2 ^ 31 - 1`. -/
def wrapInt32 (i : Int) : Int :=
  (i + 2 ^ 31) % 2 ^ 32 - 2 ^ 31

/-- Lines 90-94: the row loop, rows `0 .. y-1` written in ascending order.  The
offsets `lockedRect.Pitch * y` and `aStride * y` are products of 32-bit `int`s. -/
def copyRowsLoop (Pitch : Int) (aData : Bytes) (aStride : Int) (width : Nat) :
    Nat → Bytes → Bytes
  | 0, m => m
  | y + 1, m =>
    memcpy (copyRowsLoop Pitch aData aStride width y m) (wrapInt32 (Pitch * (y : Int))) aData
      (wrapInt32 (aStride * (y : Int))) width

/-- The row loop run through a locked rectangle: writing through a null `pBits`
is a null dereference. -/
def copyRows (lockedRect : D3DLOCKED_RECT) (aData : Bytes) (aStride : Int) (width height : Nat)
    (w : World) : Option World :=
  match lockedRect.pBits with
  | some p =>
    some { w with
      bits := fun i =>
        if i = p then copyRowsLoop lockedRect.Pitch aData aStride width height (w.bits p)
        else w.bits i }
  | none => if height = 0 then some w else none

/-- Lines 32-106. -/
def DataToTexture (env : Env) (aDevice : Nat) (aData : Bytes) (aStride : Int)
    (aSize : gfxIntSize) (aFormat : D3DFORMAT) (w : World) : Res (Option IDirect3DTexture9) :=
  match QueryInterface env aDevice w with
  | (true, w) =>
    match CreateTexture aDevice aSize.width aSize.height 1 0 aFormat D3DPOOL.D3DPOOL_DEFAULT
        none w with
    | (none, w) => .ok none w
    | (some texture, w) =>
      match CreateTexture aDevice aSize.width aSize.height 1 0 aFormat
          D3DPOOL.D3DPOOL_SYSTEMMEM none w with
      | (none, w) => .ok none w
      | (some tmpTexture, w) =>
        match LockRect tmpTexture env.uninit (GetSurfaceLevel tmpTexture w) with
        | (hr, lockedRect, w) =>
          if !hr || lockedRect.pBits.isNone then .ok none w
          else
            match copyRows lockedRect aData aStride (rowWidth aSize aFormat) aSize.height w with
            | none => .crash Fault.nullDeref w
            | some w =>
              .ok (some texture)
                (UpdateSurface aDevice tmpTexture texture
                  (GetSurfaceLevel texture (UnlockRect tmpTexture w)))
  | (false, w) =>
    match CreateTexture aDevice aSize.width aSize.height 1 0 aFormat D3DPOOL.D3DPOOL_MANAGED
        none w with
    | (none, w) => .ok none w
    | (some texture, w) =>
      match LockRect texture env.uninit w with
      | (_, lockedRect, w) =>
        match copyRows lockedRect aData aStride (rowWidth aSize aFormat) aSize.height w with
        | none => .crash Fault.nullDeref w
        | some w => .ok (some texture) (UnlockRect texture w)

/-! ## `OpenSharedTexture` and `SurfaceToTexture` -/

/-- The fields of `D3DSURFACE_DESC` the file reads. -/
structure D3DSURFACE_DESC where
  Format : D3DFORMAT
  Width : Nat
  Height : Nat
  deriving DecidableEq, Repr

/-- The check `MOZ_ASSERT(cond)`: does execution continue past it.  The check exists in
debug builds only. -/
def MOZ_ASSERT (env : Env) (cond : Bool) : Bool :=
  !env.debug || cond

/-- Lines 108-130. -/
def OpenSharedTexture (env : Env) (aDesc : D3DSURFACE_DESC) (aShareHandle : Nat)
    (aDevice : Nat) (w : World) : Res (Option IDirect3DTexture9) :=
  if MOZ_ASSERT env (aDesc.Format = D3DFORMAT.D3DFMT_X8R8G8B8) then
    match CreateTexture aDevice aDesc.Width aDesc.Height 1 D3DUSAGE_RENDERTARGET
        D3DFORMAT.D3DFMT_X8R8G8B8 D3DPOOL.D3DPOOL_DEFAULT (some aShareHandle) w with
    | (sharedTexture, w) => .ok sharedTexture w
  else .crash Fault.assertion w

/-- An image surface: pixel bytes, stride and format. -/
structure gfxImageSurface where
  Data : Bytes
  Stride : Int
  Format : gfxImageFormat

/-- The content types of a surface. -/
inductive gfxContentType where
  | CONTENT_COLOR
  | CONTENT_ALPHA
  | CONTENT_COLOR_ALPHA
  deriving DecidableEq, Repr

/-- A surface as the file uses it: the image surface `GetAsImageSurface()`
yields (if any), the pixels and stride that painting the surface onto a fresh
ARGB32 image surface with `OPERATOR_SOURCE` gives, and its content type. -/
structure gfxASurface where
  imageSurface : Option gfxImageSurface
  paintedData : Bytes
  paintedStride : Int
  contentType : gfxContentType

/-- Lines 132-152. -/
def SurfaceToTexture (env : Env) (aDevice : Nat) (aSurface : gfxASurface) (aSize : gfxIntSize)
    (w : World) : Res (Option IDirect3DTexture9) :=
  let imageSurface : gfxImageSurface :=
    match aSurface.imageSurface with
    | some s => s
    | none =>
      { Data := aSurface.paintedData, Stride := aSurface.paintedStride,
        Format := gfxImageFormat.ImageFormatARGB32 }
  DataToTexture env aDevice imageSurface.Data imageSurface.Stride aSize
    (D3dFormatForGfxFormat imageSurface.Format) w

/-! ## `AllocateTexturesYCbCr` -/

/-- The fields of `PlanarYCbCrImage::Data` the file reads. -/
structure PlanarYCbCrData where
  mYChannel : Bytes
  mYStride : Int
  mYSize : gfxIntSize
  mCbChannel : Bytes
  mCrChannel : Bytes
  mCbCrStride : Int
  mCbCrSize : gfxIntSize
  mPicX : Int
  mPicY : Int
  mPicSize : gfxIntSize

/-- The three plane textures cached on a planar image. -/
structure PlanarYCbCrD3D9BackendData where
  mYTexture : Option IDirect3DTexture9
  mCbTexture : Option IDirect3DTexture9
  mCrTexture : Option IDirect3DTexture9
  deriving DecidableEq, Repr

/-- A planar image: its data and its D3D9 backend-data slot. -/
structure PlanarYCbCrImage where
  mData : PlanarYCbCrData
  backendData : Option PlanarYCbCrD3D9BackendData

/-- The call `aManager->ReportFailure(...)`. -/
def ReportFailure (w : World) : World :=
  { w with failures := w.failures + 1 }

/-- One plane loop of lines 262-288: `memcpy(dest, src, width); dest += Pitch;
src += stride;` repeated `h` times. -/
def copyPlaneLoop (Pitch : Int) (chan : Bytes) (stride : Int) (width : Nat) :
    Nat → Int → Int → Bytes → Bytes
  | 0, _, _, m => m
  | h + 1, dest, src, m =>
    copyPlaneLoop Pitch chan stride width h (dest + Pitch) (src + stride)
      (memcpy m dest chan src width)

/-- A plane loop run through its locked rectangle: writing through a null
`pBits` is a null dereference. -/
def copyPlane (lockrect : D3DLOCKED_RECT) (chan : Bytes) (stride : Int) (size : gfxIntSize)
    (w : World) : Option World :=
  match lockrect.pBits with
  | some p =>
    some { w with
      bits := fun i =>
        if i = p then
          copyPlaneLoop lockrect.Pitch chan stride size.width size.height 0 0 (w.bits p)
        else w.bits i }
  | none => if size.height = 0 then some w else none

/-- Lines 257-307, common to both device classes: the three plane loops, the
unlocks (and, on D3D9Ex, the three `UpdateSurface` transfers from the staging
surfaces), then `SetBackendData`. -/
def copyPlanesAndStore (aImage : PlanarYCbCrImage) (aDevice : Nat) (isD3D9Ex : Bool)
    (mYTexture mCbTexture mCrTexture : IDirect3DTexture9)
    (tmpSurfaceY tmpSurfaceCb tmpSurfaceCr : IDirect3DTexture9)
    (lockrectY lockrectCb lockrectCr : D3DLOCKED_RECT) (w : World) : Res PlanarYCbCrImage :=
  let data := aImage.mData
  match copyPlane lockrectY data.mYChannel data.mYStride data.mYSize w with
  | none => .crash Fault.nullDeref w
  | some w =>
    match copyPlane lockrectCb data.mCbChannel data.mCbCrStride data.mCbCrSize w with
    | none => .crash Fault.nullDeref w
    | some w =>
      match copyPlane lockrectCr data.mCrChannel data.mCbCrStride data.mCbCrSize w with
      | none => .crash Fault.nullDeref w
      | some w =>
        let stored : PlanarYCbCrImage :=
          { aImage with
            backendData := some { mYTexture := some mYTexture, mCbTexture := some mCbTexture,
                                  mCrTexture := some mCrTexture } }
        if isD3D9Ex then
          let w := UnlockRect tmpSurfaceCr (UnlockRect tmpSurfaceCb (UnlockRect tmpSurfaceY w))
          let w := UpdateSurface aDevice tmpSurfaceY mYTexture (GetSurfaceLevel mYTexture w)
          let w := UpdateSurface aDevice tmpSurfaceCb mCbTexture (GetSurfaceLevel mCbTexture w)
          let w := UpdateSurface aDevice tmpSurfaceCr mCrTexture (GetSurfaceLevel mCrTexture w)
          .ok stored w
        else
          .ok stored (UnlockRect mCrTexture (UnlockRect mCbTexture (UnlockRect mYTexture w)))

/-- The call `p->LockRect(...)` through a smart pointer that may be null, result ignored. -/
def lockThrough (p : Option IDirect3DTexture9) (rect : D3DLOCKED_RECT) (w : World) :
    Option (IDirect3DTexture9 × D3DLOCKED_RECT × World) :=
  match p with
  | none => none
  | some t =>
    match LockRect t rect w with
    | (_, r, w) => some (t, r, w)

/-- Lines 154-308.  The result is the image after the call. -/
def AllocateTexturesYCbCr (env : Env) (aImage : PlanarYCbCrImage) (aDevice : Nat) (w : World) :
    Res PlanarYCbCrImage :=
  let data := aImage.mData
  match QueryInterface env aDevice w with
  | (true, w) =>
    match CreateTexture aDevice data.mYSize.width data.mYSize.height 1 0 D3DFORMAT.D3DFMT_L8
        D3DPOOL.D3DPOOL_DEFAULT none w with
    | (mYTexture, w) =>
      let hr := mYTexture.isSome
      match (if hr then
          CreateTexture aDevice data.mCbCrSize.width data.mCbCrSize.height 1 0
            D3DFORMAT.D3DFMT_L8 D3DPOOL.D3DPOOL_DEFAULT none w
        else (none, w)) with
      | (mCbTexture, w) =>
        let hr := hr && mCbTexture.isSome
        match (if hr then
            CreateTexture aDevice data.mCbCrSize.width data.mCbCrSize.height 1 0
              D3DFORMAT.D3DFMT_L8 D3DPOOL.D3DPOOL_DEFAULT none w
          else (none, w)) with
        | (mCrTexture, w) =>
          let hr := hr && mCrTexture.isSome
          match (if hr then
              CreateTexture aDevice data.mYSize.width data.mYSize.height 1 0
                D3DFORMAT.D3DFMT_L8 D3DPOOL.D3DPOOL_SYSTEMMEM none w
            else (none, w)) with
          | (tmpYTexture, w) =>
            let hr := hr && tmpYTexture.isSome
            match (if hr then
                CreateTexture aDevice data.mCbCrSize.width data.mCbCrSize.height 1 0
                  D3DFORMAT.D3DFMT_L8 D3DPOOL.D3DPOOL_SYSTEMMEM none w
              else (none, w)) with
            | (tmpCbTexture, w) =>
              let hr := hr && tmpCbTexture.isSome
              match (if hr then
                  CreateTexture aDevice data.mCbCrSize.width data.mCbCrSize.height 1 0
                    D3DFORMAT.D3DFMT_L8 D3DPOOL.D3DPOOL_SYSTEMMEM none w
                else (none, w)) with
              | (tmpCrTexture, w) =>
                let hr := hr && tmpCrTexture.isSome
                if !hr then .ok aImage (ReportFailure w)
                else
                  match tmpYTexture, tmpCbTexture, tmpCrTexture with
                  | some tmpY, some tmpCb, some tmpCr =>
                    let w := GetSurfaceLevel tmpCr (GetSurfaceLevel tmpCb (GetSurfaceLevel tmpY w))
                    match LockRect tmpY env.uninit w with
                    | (_, lockrectY, w) =>
                      match LockRect tmpCb env.uninit w with
                      | (_, lockrectCb, w) =>
                        match LockRect tmpCr env.uninit w with
                        | (_, lockrectCr, w) =>
                          match mYTexture, mCbTexture, mCrTexture with
                          | some y, some cb, some cr =>
                            copyPlanesAndStore aImage aDevice true y cb cr tmpY tmpCb tmpCr
                              lockrectY lockrectCb lockrectCr w
                          | _, _, _ => .crash Fault.nullDeref w
                  | _, _, _ => .crash Fault.nullDeref w
  | (false, w) =>
    match CreateTexture aDevice data.mYSize.width data.mYSize.height 1 0 D3DFORMAT.D3DFMT_L8
        D3DPOOL.D3DPOOL_MANAGED none w with
    | (mYTexture, w) =>
      let hr := mYTexture.isSome
      match (if hr then
          CreateTexture aDevice data.mCbCrSize.width data.mCbCrSize.height 1 0
            D3DFORMAT.D3DFMT_L8 D3DPOOL.D3DPOOL_MANAGED none w
        else (none, w)) with
      | (mCbTexture, w) =>
        match (if hr then
            CreateTexture aDevice data.mCbCrSize.width data.mCbCrSize.height 1 0
              D3DFORMAT.D3DFMT_L8 D3DPOOL.D3DPOOL_MANAGED none w
          else (none, w)) with
        | (mCrTexture, w) =>
          if !hr then .ok aImage (ReportFailure w)
          else
            match lockThrough mYTexture env.uninit w with
            | none => .crash Fault.nullDeref w
            | some (y, lockrectY, w) =>
              match lockThrough mCbTexture env.uninit w with
              | none => .crash Fault.nullDeref w
              | some (cb, lockrectCb, w) =>
                match lockThrough mCrTexture env.uninit w with
                | none => .crash Fault.nullDeref w
                | some (cr, lockrectCr, w) =>
                  copyPlanesAndStore aImage aDevice false y cb cr y cb cr
                    lockrectY lockrectCb lockrectCr w

/-! ## Images and `ImageLayerD3D9::GetTexture` -/

/-- The enumeration `RemoteImageData::Format`. -/
inductive RemoteImageDataFormat where
  | BGRA32
  | BGRX32
  deriving DecidableEq, Repr

/-- The fields of `RemoteBitmapImage`. -/
structure RemoteBitmapImage where
  mData : Bytes
  mStride : Int
  mSize : gfxIntSize
  mFormat : RemoteImageDataFormat

/-- The fields of `CairoImage`; `mSurface` may be null. -/
structure CairoImage where
  mSurface : Option gfxASurface
  mSize : gfxIntSize

/-- What `D3D9SurfaceImage` exposes: `GetDesc()` and `GetShareHandle()`. -/
structure D3D9SurfaceImage where
  desc : D3DSURFACE_DESC
  shareHandle : Nat

/-- The single texture cached on a packed, remote or shared-surface image. -/
structure TextureD3D9BackendData where
  mTexture : Option IDirect3DTexture9
  deriving DecidableEq, Repr

/-- What `GetFormat()` reports together with the subclass fields that format
stands for; every format the function does not name is `OTHER`. -/
inductive ImageData where
  | REMOTE_IMAGE_BITMAP (remoteImage : RemoteBitmapImage)
  | CAIRO_SURFACE (cairoImage : CairoImage)
  | D3D9_RGB32_TEXTURE (image : D3D9SurfaceImage)
  | OTHER (format : Nat)

/-- An image: its format-specific data and its D3D9 backend-data slot
(`GetBackendData(LAYERS_D3D9)` / `SetBackendData(LAYERS_D3D9, ...)`). -/
structure Image where
  data : ImageData
  backendData : Option TextureD3D9BackendData

/-- What a `GetTexture` call leaves behind: the returned pointer (`none` is
`nullptr`), the value of the reference parameter `aHasAlpha`, and the image. -/
structure GetTextureResult where
  texture : Option IDirect3DTexture9
  aHasAlpha : Bool
  aImage : Image

/-- The call `GetDevice` on a texture. -/
def GetDevice (t : IDirect3DTexture9) (w : World) : Nat × World :=
  (t.dev, { w with calls := w.calls ++ [Call.GetDevice t.id] })

/-- The pattern of lines 333-337, 350-354 and 362-367: store the new texture
in the slot only if it is non-null. -/
def storeIfTexture (aImage : Image) (r : Res (Option IDirect3DTexture9)) : Res Image :=
  match r with
  | .crash f w => .crash f w
  | .ok none w => .ok aImage w
  | .ok (some t) w => .ok { aImage with backendData := some { mTexture := some t } } w

/-- Lines 375-388: read the slot back and check the texture's device. -/
def returnCached (device : Nat) (aImage : Image) (aHasAlpha : Bool) (w : World) :
    Res GetTextureResult :=
  match aImage.backendData with
  | none => .ok { texture := none, aHasAlpha := aHasAlpha, aImage := aImage } w
  | some data =>
    match data.mTexture with
    | none => .crash Fault.nullDeref w
    | some t =>
      match GetDevice t w with
      | (dev, w) =>
        if dev ≠ device then .ok { texture := none, aHasAlpha := aHasAlpha, aImage := aImage } w
        else .ok { texture := some t, aHasAlpha := aHasAlpha, aImage := aImage } w

/-- Lines 323-389.  `device` is the layer's current device (`device()`). -/
def GetTexture (env : Env) (device : Nat) (aImage : Image) (aHasAlpha : Bool) (w : World) :
    Res GetTextureResult :=
  match aImage.data with
  | .REMOTE_IMAGE_BITMAP remoteImage =>
    match (if aImage.backendData.isNone then
        storeIfTexture aImage
          (DataToTexture env device remoteImage.mData remoteImage.mStride remoteImage.mSize
            D3DFORMAT.D3DFMT_A8R8G8B8 w)
      else .ok aImage w) with
    | .crash f w => .crash f w
    | .ok aImage w =>
      returnCached device aImage (remoteImage.mFormat = RemoteImageDataFormat.BGRA32) w
  | .CAIRO_SURFACE cairoImage =>
    match cairoImage.mSurface with
    | none => .ok { texture := none, aHasAlpha := aHasAlpha, aImage := aImage } w
    | some mSurface =>
      match (if aImage.backendData.isNone then
          storeIfTexture aImage (SurfaceToTexture env device mSurface cairoImage.mSize w)
        else .ok aImage w) with
      | .crash f w => .crash f w
      | .ok aImage w =>
        returnCached device aImage
          (mSurface.contentType = gfxContentType.CONTENT_COLOR_ALPHA) w
  | .D3D9_RGB32_TEXTURE image =>
    match (if aImage.backendData.isNone then
        storeIfTexture aImage (OpenSharedTexture env image.desc image.shareHandle device w)
      else .ok aImage w) with
    | .crash f w => .crash f w
    | .ok aImage w => returnCached device aImage false w
  | .OTHER _ => .ok { texture := none, aHasAlpha := aHasAlpha, aImage := aImage } w

/-! ## The texture coordinates of `ImageLayerD3D9::RenderLayer` -/

/-- The texture `DataToTexture` returns when every driver call succeeds. -/
def uploaded (env : Env) (aDevice : Nat) (aSize : gfxIntSize) (aFormat : D3DFORMAT)
    (w : World) : IDirect3DTexture9 :=
  { id := w.nextId, dev := aDevice, Width := aSize.width, Height := aSize.height, Usage := 0,
    Format := aFormat,
    Pool := if env.isEx aDevice then D3DPOOL.D3DPOOL_DEFAULT else D3DPOOL.D3DPOOL_MANAGED,
    shareHandle := none }

/-- The plane texture `AllocateTexturesYCbCr` creates as its `k`-th object. -/
def planeTexture (env : Env) (aDevice : Nat) (size : gfxIntSize) (w : World) (k : Nat) :
    IDirect3DTexture9 :=
  { id := w.nextId + k, dev := aDevice, Width := size.width, Height := size.height, Usage := 0,
    Format := D3DFORMAT.D3DFMT_L8,
    Pool := if env.isEx aDevice then D3DPOOL.D3DPOOL_DEFAULT else D3DPOOL.D3DPOOL_MANAGED,
    shareHandle := none }

/-- A world in which nothing has happened yet, with the given driver answers. -/
def freshWorld (creates : List Bool) (locks : List LockAnswer) : World :=
  { calls := [], creates := creates, locks := locks, nextId := 0, bits := fun _ _ => 0,
    failures := 0 }

/-- A release build in which every device is of the standard class. -/
def standardEnv : Env :=
  { isEx := fun _ => false, debug := false, uninit := { pBits := some 7, Pitch := 0 } }

/-- A debug build in which every device is of the D3D9Ex class. -/
def extendedEnv : Env :=
  { isEx := fun _ => true, debug := true, uninit := { pBits := some 7, Pitch := 0 } }

/-- Test pixels: the byte at offset `a` is `a mod 251 + 1`. -/
def pixels : Bytes := fun a => (a % 251).toNat + 1

/-- A 4x4 32-bit remote bitmap with stride 20, nothing cached. -/
def remote4x4 : Image :=
  { data := ImageData.REMOTE_IMAGE_BITMAP
      { mData := pixels, mStride := 20, mSize := { width := 4, height := 4 },
        mFormat := RemoteImageDataFormat.BGRA32 },
    backendData := none }

/-- The same bitmap with a texture of device 1 already in its slot. -/
def staleRemote4x4 : Image :=
  { remote4x4 with
    backendData := some
      { mTexture := some
          { id := 0, dev := 1, Width := 4, Height := 4, Usage := 0,
            Format := D3DFORMAT.D3DFMT_A8R8G8B8, Pool := D3DPOOL.D3DPOOL_MANAGED,
            shareHandle := none } } }

/-- An image of a format `GetTexture` does not name, with a texture of device 1
in its slot. -/
def unsupportedImage : Image :=
  { data := ImageData.OTHER 0, backendData := staleRemote4x4.backendData }

/-- A planar image with luma 16x16 and chroma 8x8, nothing cached. -/
def planar16 : PlanarYCbCrImage :=
  { mData :=
      { mYChannel := pixels, mYStride := 16, mYSize := { width := 16, height := 16 },
        mCbChannel := pixels, mCrChannel := pixels, mCbCrStride := 8,
        mCbCrSize := { width := 8, height := 8 },
        mPicX := 0, mPicY := 0, mPicSize := { width := 16, height := 16 } },
    backendData := none }

/-- A fresh world whose driver creates three textures and locks each with its
own pitch: 16, 32 and 8. -/
def planarWorld : World :=
  freshWorld [true, true, true] [.locked true 16, .locked true 32, .locked true 8]

/-- A fresh world whose driver creates six textures (three planes and three
staging textures) and locks each staging surface with its own pitch: 16, 32
and 8. -/
def planarWorldEx : World :=
  freshWorld [true, true, true, true, true, true]
    [.locked true 16, .locked true 32, .locked true 8]

/-- A shared-surface descriptor whose format is not `D3DFMT_X8R8G8B8`. -/
def argbDesc : D3DSURFACE_DESC :=
  { Format := D3DFORMAT.D3DFMT_A8R8G8B8, Width := 4, Height := 4 }

/-! # Theorems -/

/-! ## Facts about the cache read-back -/

theorem returnCached_some {device : Nat} {aImage : Image} {a : Bool} {w w1 : World}
    {r : GetTextureResult} {t : IDirect3DTexture9}
    (h : returnCached device aImage a w = .ok r w1) (ht : r.texture = some t) :
    aImage.backendData = some { mTexture := some t } ∧ t.dev = device ∧
      r = { texture := some t, aHasAlpha := a, aImage := aImage } ∧
      w1 = { w with calls := w.calls ++ [Call.GetDevice t.id] } := by
  unfold returnCached at h
  cases hb : aImage.backendData with
  | none =>
    rw [hb] at h
    simp only [Res.ok.injEq] at h
    obtain ⟨h1, _⟩ := h
    subst h1
    simp at ht
  | some data =>
    rw [hb] at h
    obtain ⟨mt⟩ := data
    cases mt with
    | none => simp at h
    | some t0 =>
      simp only [GetDevice] at h
      by_cases hd : t0.dev = device
      · simp only [hd, ne_eq, not_true_eq_false, ↓reduceIte, Res.ok.injEq] at h
        obtain ⟨h1, h2⟩ := h
        subst h1
        simp only [Option.some.injEq] at ht
        subst ht
        exact ⟨rfl, hd, rfl, h2.symm⟩
      · simp only [ne_eq, hd, not_false_eq_true, ↓reduceIte, Res.ok.injEq] at h
        obtain ⟨h1, _⟩ := h
        subst h1
        simp at ht

theorem returnCached_hit (device : Nat) (aImage : Image) (a : Bool) (w : World)
    (t : IDirect3DTexture9) (hb : aImage.backendData = some { mTexture := some t })
    (hd : t.dev = device) :
    returnCached device aImage a w =
      .ok { texture := some t, aHasAlpha := a, aImage := aImage }
        { w with calls := w.calls ++ [Call.GetDevice t.id] } := by
  unfold returnCached
  rw [hb]
  simp [GetDevice, hd]

theorem returnCached_stale (device : Nat) (aImage : Image) (a : Bool) (w : World)
    (t : IDirect3DTexture9) (hb : aImage.backendData = some { mTexture := some t })
    (hd : t.dev ≠ device) :
    returnCached device aImage a w =
      .ok { texture := none, aHasAlpha := a, aImage := aImage }
        { w with calls := w.calls ++ [Call.GetDevice t.id] } := by
  unfold returnCached
  rw [hb]
  simp [GetDevice, hd]

theorem storeIfTexture_data {aImage aImage1 : Image} {res : Res (Option IDirect3DTexture9)}
    {w1 : World} (h : storeIfTexture aImage res = .ok aImage1 w1) :
    aImage1.data = aImage.data := by
  unfold storeIfTexture at h
  split at h
  · simp at h
  · simp only [Res.ok.injEq] at h
    rw [← h.1]
  · simp only [Res.ok.injEq] at h
    rw [← h.1]

/-- The conversion step of every branch keeps the image's format data. -/
theorem convert_data {aImage aImage1 : Image} {res : Res (Option IDirect3DTexture9)}
    {w w1 : World}
    (h : (if aImage.backendData.isNone then storeIfTexture aImage res else .ok aImage w)
      = .ok aImage1 w1) :
    aImage1.data = aImage.data := by
  split at h
  · exact storeIfTexture_data h
  · simp only [Res.ok.injEq] at h
    rw [← h.1]

/-- A returned texture is the one the slot holds afterwards, it lives on the
current device, and the image keeps its format data. -/
theorem GetTexture_some {env : Env} {device : Nat} {aImage : Image} {a : Bool} {w w1 : World}
    {r : GetTextureResult} {t : IDirect3DTexture9}
    (h : GetTexture env device aImage a w = .ok r w1) (ht : r.texture = some t) :
    r.aImage.data = aImage.data ∧ r.aImage.backendData = some { mTexture := some t } ∧
      t.dev = device ∧
      ∃ a1, r = { texture := some t, aHasAlpha := a1, aImage := r.aImage } ∧
        ∀ dev2 a2 w2,
          GetTexture env dev2 r.aImage a2 w2 = returnCached dev2 r.aImage a1 w2 := by
  unfold GetTexture at h
  cases hdata : aImage.data with
  | REMOTE_IMAGE_BITMAP remoteImage =>
    rw [hdata] at h
    simp only at h
    split at h
    · simp at h
    · rename_i img1 wc hconv
      obtain ⟨hb, hd, hr, _⟩ := returnCached_some h ht
      have hdat := convert_data hconv
      subst hr
      refine ⟨by rw [hdat, hdata], hb, hd, _, rfl, ?_⟩
      intro dev2 a2 w2
      simp only at hb hdat ⊢
      unfold GetTexture
      rw [hdat, hdata]
      simp [hb]
  | CAIRO_SURFACE cairoImage =>
    rw [hdata] at h
    simp only at h
    split at h
    · simp only [Res.ok.injEq] at h
      rw [← h.1] at ht
      simp at ht
    · rename_i mSurface hs
      split at h
      · simp at h
      · rename_i img1 wc hconv
        obtain ⟨hb, hd, hr, _⟩ := returnCached_some h ht
        have hdat := convert_data hconv
        subst hr
        refine ⟨by rw [hdat, hdata], hb, hd, _, rfl, ?_⟩
        intro dev2 a2 w2
        simp only at hb hdat ⊢
        unfold GetTexture
        rw [hdat, hdata]
        simp [hb, hs]
  | D3D9_RGB32_TEXTURE image =>
    rw [hdata] at h
    simp only at h
    split at h
    · simp at h
    · rename_i img1 wc hconv
      obtain ⟨hb, hd, hr, _⟩ := returnCached_some h ht
      have hdat := convert_data hconv
      subst hr
      refine ⟨by rw [hdat, hdata], hb, hd, _, rfl, ?_⟩
      intro dev2 a2 w2
      simp only at hb hdat ⊢
      unfold GetTexture
      rw [hdat, hdata]
      simp [hb]
  | OTHER format =>
    rw [hdata] at h
    simp only [Res.ok.injEq] at h
    rw [← h.1] at ht
    simp at ht



theorem returnCached_image {device : Nat} {aImage : Image} {a : Bool} {w w1 : World}
    {r : GetTextureResult} (h : returnCached device aImage a w = .ok r w1) :
    r.aImage = aImage := by
  unfold returnCached at h
  split at h
  · simp only [Res.ok.injEq] at h
    rw [← h.1]
  · split at h
    · simp at h
    · simp only [GetDevice] at h
      split at h <;>
      · simp only [Res.ok.injEq] at h
        rw [← h.1]

/-- A call that finds the slot populated leaves it as it is. -/
theorem GetTexture_keeps_slot {env : Env} {device : Nat} {aImage : Image} {a : Bool}
    {w w1 : World} {r : GetTextureResult} {d : TextureD3D9BackendData}
    (h : GetTexture env device aImage a w = .ok r w1) (hb : aImage.backendData = some d) :
    r.aImage.backendData = aImage.backendData := by
  unfold GetTexture at h
  split at h
  · simp only [hb, Option.isNone_some, Bool.false_eq_true, ↓reduceIte] at h
    rw [returnCached_image h]
  · split at h
    · simp only [Res.ok.injEq] at h
      rw [← h.1]
    · simp only [hb, Option.isNone_some, Bool.false_eq_true, ↓reduceIte] at h
      rw [returnCached_image h]
  · simp only [hb, Option.isNone_some, Bool.false_eq_true, ↓reduceIte] at h
    rw [returnCached_image h]
  · simp only [Res.ok.injEq] at h
    rw [← h.1]

/-! ## The row loops -/

theorem wrapInt32_of_fits (i : Int) (hlo : -2 ^ 31 ≤ i) (hhi : i < 2 ^ 31) :
    wrapInt32 i = i := by
  unfold wrapInt32
  omega

theorem copyRowsLoop_row (Pitch : Int) (aData : Bytes) (aStride : Int) (width : Nat)
    (hp : (width : Int) ≤ Pitch) (h : Nat) (m : Bytes)
    (hfitP : ∀ y : Nat, y < h → Pitch * (y : Int) < 2 ^ 31)
    (hfitS : ∀ y : Nat, y < h → -2 ^ 31 ≤ aStride * (y : Int) ∧ aStride * (y : Int) < 2 ^ 31)
    (y x : Nat) (hy : y < h) (hx : x < width) :
    copyRowsLoop Pitch aData aStride width h m (Pitch * (y : Int) + (x : Int))
      = aData (aStride * (y : Int) + (x : Int)) := by
  induction h with
  | zero => omega
  | succ n ih =>
    have hp0 : (0 : Int) ≤ Pitch := le_trans (Int.ofNat_nonneg width) hp
    have hxw : (x : Int) < (width : Int) := by exact_mod_cast hx
    have hPn0 : (0 : Int) ≤ Pitch * (n : Int) := mul_nonneg hp0 (Int.ofNat_nonneg n)
    have hwP : wrapInt32 (Pitch * (n : Int)) = Pitch * (n : Int) :=
      wrapInt32_of_fits _ (by omega) (hfitP n (by omega))
    have hwS : wrapInt32 (aStride * (n : Int)) = aStride * (n : Int) :=
      wrapInt32_of_fits _ (hfitS n (by omega)).1 (hfitS n (by omega)).2
    simp only [copyRowsLoop, memcpy, hwP, hwS]
    by_cases hyn : y = n
    · subst hyn
      have hc : Pitch * (y : Int) ≤ Pitch * (y : Int) + (x : Int) ∧
          Pitch * (y : Int) + (x : Int) < Pitch * (y : Int) + (width : Int) := by
        constructor <;> omega
      rw [if_pos hc]
      congr 1
      ring
    · have hlt : y < n := by omega
      have hle : Pitch * ((y : Int) + 1) ≤ Pitch * (n : Int) := by
        apply mul_le_mul_of_nonneg_left _ hp0
        exact_mod_cast hlt
      have hc : ¬ (Pitch * (n : Int) ≤ Pitch * (y : Int) + (x : Int) ∧
          Pitch * (y : Int) + (x : Int) < Pitch * (n : Int) + (width : Int)) := by
        intro hcon
        have : Pitch * ((y : Int) + 1) = Pitch * (y : Int) + Pitch := by ring
        omega
      rw [if_neg hc]
      exact ih (fun z hz => hfitP z (by omega)) (fun z hz => hfitS z (by omega)) hlt

theorem rowWidth_eq (aSize : gfxIntSize) (aFormat : D3DFORMAT) (bpp : Nat)
    (hfmt : (aFormat = D3DFORMAT.D3DFMT_A8 ∧ bpp = 1) ∨
      (aFormat = D3DFORMAT.D3DFMT_A8R8G8B8 ∧ bpp = 4))
    (hw : aSize.width * bpp < 2 ^ 32) : rowWidth aSize aFormat = aSize.width * bpp := by
  unfold rowWidth
  rcases hfmt with ⟨hf, hb⟩ | ⟨hf, hb⟩
  · subst hf hb
    simp only [mul_one] at hw
    simp only [Nat.mod_eq_of_lt hw, mul_one]
    rfl
  · subst hf hb
    have h1 : aSize.width < 2 ^ 32 := by omega
    simp only [Nat.mod_eq_of_lt h1, Nat.mod_eq_of_lt hw]
    rfl

/-- What a `Res` is, from its value and world. -/
theorem Res.eq_ok_of_val {α : Type} {r : Res α} {a : α} (h : r.val? = some a) :
    r = .ok a r.world := by
  cases r with
  | ok v w =>
    simp only [Res.val?, Option.some.injEq] at h
    subst h
    rfl
  | crash f w => simp [Res.val?] at h

theorem DataToTexture_ok (env : Env) (aDevice : Nat) (aData : Bytes) (aStride : Int)
    (aSize : gfxIntSize) (aFormat : D3DFORMAT) (w : World) (Pitch : Int)
    (hcreate : w.creates.head? = some true ∧
      (env.isEx aDevice = true → w.creates.tail.head? = some true))
    (hlock : w.locks.head? = some (LockAnswer.locked true Pitch)) :
    (DataToTexture env aDevice aData aStride aSize aFormat w).val?
        = some (some (uploaded env aDevice aSize aFormat w)) ∧
      ∃ m, (DataToTexture env aDevice aData aStride aSize aFormat w).world.bits w.nextId
        = copyRowsLoop Pitch aData aStride (rowWidth aSize aFormat) aSize.height m := by
  obtain ⟨hc1, hc2⟩ := hcreate
  cases hex : env.isEx aDevice with
  | true =>
    have hc2 := hc2 hex
    simp [DataToTexture, QueryInterface, hex, CreateTexture, hc1, List.head?_tail, hc2,
      LockRect, GetSurfaceLevel, hlock, copyRows, UnlockRect, UpdateSurface, Res.val?, Res.world,
      uploaded]
  | false =>
    simp [DataToTexture, QueryInterface, hex, CreateTexture, hc1,
      LockRect, hlock, copyRows, UnlockRect, Res.val?, Res.world, uploaded]

/-- Rows of `DataToTexture`: with the creations succeeding and the lock giving a
non-null pointer and a pitch no shorter than a row, the call returns a texture
whose covered bytes are the source's. -/
theorem DataToTexture_rows (env : Env) (aDevice : Nat) (aData : Bytes) (aStride : Int)
    (aSize : gfxIntSize) (aFormat : D3DFORMAT) (bpp : Nat) (w : World) (Pitch : Int)
    (hfmt : (aFormat = D3DFORMAT.D3DFMT_A8 ∧ bpp = 1) ∨
      (aFormat = D3DFORMAT.D3DFMT_A8R8G8B8 ∧ bpp = 4))
    (hcreate : w.creates.head? = some true ∧
      (env.isEx aDevice = true → w.creates.tail.head? = some true))
    (hlock : w.locks.head? = some (LockAnswer.locked true Pitch))
    (hpitch : ((aSize.width * bpp : Nat) : Int) ≤ Pitch) (hint : Pitch < 2 ^ 31)
    (hfitP : ∀ y : Nat, y < aSize.height → Pitch * (y : Int) < 2 ^ 31)
    (hfitS : ∀ y : Nat, y < aSize.height →
      -2 ^ 31 ≤ aStride * (y : Int) ∧ aStride * (y : Int) < 2 ^ 31) :
    ∃ texture w1,
      DataToTexture env aDevice aData aStride aSize aFormat w = .ok (some texture) w1 ∧
      texture.dev = aDevice ∧ texture.Width = aSize.width ∧ texture.Height = aSize.height ∧
      texture.Format = aFormat ∧
      ∀ y x : Nat, y < aSize.height → x < aSize.width * bpp →
        w1.bits texture.id (Pitch * (y : Int) + (x : Int))
          = aData (aStride * (y : Int) + (x : Int)) := by
  have hw : aSize.width * bpp < 2 ^ 32 := by
    have : ((aSize.width * bpp : Nat) : Int) < 2 ^ 32 := by omega
    exact_mod_cast this
  have hrw := rowWidth_eq aSize aFormat bpp hfmt hw
  obtain ⟨hv, m, hm⟩ := DataToTexture_ok env aDevice aData aStride aSize aFormat w Pitch
    hcreate hlock
  refine ⟨_, _, Res.eq_ok_of_val hv, rfl, rfl, rfl, rfl, ?_⟩
  intro y x hy hx
  show (DataToTexture env aDevice aData aStride aSize aFormat w).world.bits w.nextId _ = _
  rw [hm, hrw]
  exact copyRowsLoop_row Pitch aData aStride _ hpitch _ m hfitP hfitS y x hy hx

theorem copyPlaneLoop_below (Pitch : Int) (chan : Bytes) (stride : Int) (width : Nat)
    (hp0 : 0 ≤ Pitch) (n : Nat) :
    ∀ (dest src : Int) (m : Bytes) (a : Int), a < dest →
      copyPlaneLoop Pitch chan stride width n dest src m a = m a := by
  induction n with
  | zero => intro dest src m a _; rfl
  | succ k ih =>
    intro dest src m a ha
    simp only [copyPlaneLoop]
    rw [ih (dest + Pitch) (src + stride) _ a (by omega)]
    simp only [memcpy]
    rw [if_neg (by omega)]

theorem copyPlaneLoop_row (Pitch : Int) (chan : Bytes) (stride : Int) (width : Nat)
    (hp : (width : Int) ≤ Pitch) (n : Nat) :
    ∀ (dest src : Int) (m : Bytes) (y x : Nat), y < n → x < width →
      copyPlaneLoop Pitch chan stride width n dest src m (dest + Pitch * (y : Int) + (x : Int))
        = chan (src + stride * (y : Int) + (x : Int)) := by
  have hp0 : (0 : Int) ≤ Pitch := le_trans (Int.ofNat_nonneg width) hp
  induction n with
  | zero => intro dest src m y x hy; omega
  | succ k ih =>
    intro dest src m y x hy hx
    have hxw : (x : Int) < (width : Int) := by exact_mod_cast hx
    simp only [copyPlaneLoop]
    cases y with
    | zero =>
      rw [copyPlaneLoop_below Pitch chan stride width hp0 k _ _ _ _ (by simp; omega)]
      simp only [memcpy, Nat.cast_zero, mul_zero, add_zero]
      rw [if_pos (by constructor <;> omega)]
      congr 1
      ring
    | succ j =>
      have h1 := ih (dest + Pitch) (src + stride) (memcpy m dest chan src width) j x
        (by omega) hx
      have e1 : dest + Pitch * ((j + 1 : Nat) : Int) + (x : Int)
          = dest + Pitch + Pitch * (j : Int) + (x : Int) := by push_cast; ring
      have e2 : src + stride * ((j + 1 : Nat) : Int) + (x : Int)
          = src + stride + stride * (j : Int) + (x : Int) := by push_cast; ring
      rw [e1, e2]
      exact h1

theorem AllocateTexturesYCbCr_ok (env : Env) (aImage : PlanarYCbCrImage) (aDevice : Nat)
    (w : World) (pY pCb pCr : Int) (restC : List Bool) (restL : List LockAnswer)
    (hcreate : w.creates = true :: true :: true :: restC)
    (hex : env.isEx aDevice = true → ∃ rest, restC = true :: true :: true :: rest)
    (hlock : w.locks = LockAnswer.locked true pY :: LockAnswer.locked true pCb ::
      LockAnswer.locked true pCr :: restL) :
    (AllocateTexturesYCbCr env aImage aDevice w).val? = some
        { aImage with
          backendData := some
            { mYTexture := some (planeTexture env aDevice aImage.mData.mYSize w 0),
              mCbTexture := some (planeTexture env aDevice aImage.mData.mCbCrSize w 1),
              mCrTexture := some (planeTexture env aDevice aImage.mData.mCbCrSize w 2) } } ∧
      ∃ mY mCb mCr,
        (AllocateTexturesYCbCr env aImage aDevice w).world.bits w.nextId
          = copyPlaneLoop pY aImage.mData.mYChannel aImage.mData.mYStride
              aImage.mData.mYSize.width aImage.mData.mYSize.height 0 0 mY ∧
        (AllocateTexturesYCbCr env aImage aDevice w).world.bits (w.nextId + 1)
          = copyPlaneLoop pCb aImage.mData.mCbChannel aImage.mData.mCbCrStride
              aImage.mData.mCbCrSize.width aImage.mData.mCbCrSize.height 0 0 mCb ∧
        (AllocateTexturesYCbCr env aImage aDevice w).world.bits (w.nextId + 2)
          = copyPlaneLoop pCr aImage.mData.mCrChannel aImage.mData.mCbCrStride
              aImage.mData.mCbCrSize.width aImage.mData.mCbCrSize.height 0 0 mCr := by
  cases hx : env.isEx aDevice with
  | true =>
    obtain ⟨rest, hrest⟩ := hex hx
    subst hrest
    simp [AllocateTexturesYCbCr, QueryInterface, hx, CreateTexture, hcreate,
      LockRect, GetSurfaceLevel, hlock, copyPlanesAndStore, copyPlane, UnlockRect,
      UpdateSurface, Res.val?, Res.world, planeTexture, Nat.add_assoc]
  | false =>
    simp [AllocateTexturesYCbCr, QueryInterface, hx, CreateTexture, hcreate,
      LockRect, hlock, copyPlanesAndStore, copyPlane, UnlockRect, lockThrough,
      Res.val?, Res.world, planeTexture, Nat.add_assoc]

/-- Planes of `AllocateTexturesYCbCr`: with the creations succeeding and the
three locks giving non-null pointers and pitches no shorter than a row, the
call stores the three plane textures and each one's covered bytes are its own
channel's. -/
theorem AllocateTexturesYCbCr_planes (env : Env) (aImage : PlanarYCbCrImage) (aDevice : Nat)
    (w : World) (pY pCb pCr : Int) (restC : List Bool) (restL : List LockAnswer)
    (hcreate : w.creates = true :: true :: true :: restC)
    (hex : env.isEx aDevice = true → ∃ rest, restC = true :: true :: true :: rest)
    (hlock : w.locks = LockAnswer.locked true pY :: LockAnswer.locked true pCb ::
      LockAnswer.locked true pCr :: restL)
    (hpY : (aImage.mData.mYSize.width : Int) ≤ pY)
    (hpCb : (aImage.mData.mCbCrSize.width : Int) ≤ pCb)
    (hpCr : (aImage.mData.mCbCrSize.width : Int) ≤ pCr) :
    ∃ w1,
      AllocateTexturesYCbCr env aImage aDevice w = .ok
        { aImage with
          backendData := some
            { mYTexture := some (planeTexture env aDevice aImage.mData.mYSize w 0),
              mCbTexture := some (planeTexture env aDevice aImage.mData.mCbCrSize w 1),
              mCrTexture := some (planeTexture env aDevice aImage.mData.mCbCrSize w 2) } } w1 ∧
      (∀ h x : Nat, h < aImage.mData.mYSize.height → x < aImage.mData.mYSize.width →
        w1.bits w.nextId (pY * (h : Int) + (x : Int))
          = aImage.mData.mYChannel (aImage.mData.mYStride * (h : Int) + (x : Int))) ∧
      (∀ h x : Nat, h < aImage.mData.mCbCrSize.height → x < aImage.mData.mCbCrSize.width →
        w1.bits (w.nextId + 1) (pCb * (h : Int) + (x : Int))
          = aImage.mData.mCbChannel (aImage.mData.mCbCrStride * (h : Int) + (x : Int))) ∧
      (∀ h x : Nat, h < aImage.mData.mCbCrSize.height → x < aImage.mData.mCbCrSize.width →
        w1.bits (w.nextId + 2) (pCr * (h : Int) + (x : Int))
          = aImage.mData.mCrChannel (aImage.mData.mCbCrStride * (h : Int) + (x : Int))) := by
  obtain ⟨hv, mY, mCb, mCr, hY, hCb, hCr⟩ :=
    AllocateTexturesYCbCr_ok env aImage aDevice w pY pCb pCr restC restL hcreate hex hlock
  refine ⟨_, Res.eq_ok_of_val hv, ?_, ?_, ?_⟩
  · intro h x hh hx
    rw [hY]
    have := copyPlaneLoop_row pY aImage.mData.mYChannel aImage.mData.mYStride _ hpY _ 0 0 mY
      h x hh hx
    simpa using this
  · intro h x hh hx
    rw [hCb]
    have := copyPlaneLoop_row pCb aImage.mData.mCbChannel aImage.mData.mCbCrStride _ hpCb _ 0 0
      mCb h x hh hx
    simpa using this
  · intro h x hh hx
    rw [hCr]
    have := copyPlaneLoop_row pCr aImage.mData.mCrChannel aImage.mData.mCbCrStride _ hpCr _ 0 0
      mCr h x hh hx
    simpa using this

/-! ## The cache: claims C1, C2, C9, C10 -/

/-- C1 (idempotence of the cache).  If a `GetTexture` call made with `device`
current returned a texture `t`, then a second `GetTexture` call on the same
image with the same current device returns the identical texture `t`, keeps the
slot, and issues `GetDevice` on `t` and nothing else: no `CreateTexture`,
`LockRect` or `UpdateSurface`, no driver answer consumed, no byte changed. -/
theorem GetTexture_idempotent (env : Env) (device : Nat) (aImage : Image) (aHasAlpha : Bool)
    (w w1 : World) (r1 : GetTextureResult) (t : IDirect3DTexture9)
    (h : GetTexture env device aImage aHasAlpha w = .ok r1 w1) (ht : r1.texture = some t)
    (a2 : Bool) :
    ∃ r2 w2, GetTexture env device r1.aImage a2 w1 = .ok r2 w2 ∧ r2.texture = some t ∧
      r2.aImage.backendData = r1.aImage.backendData ∧
      w2.calls = w1.calls ++ [Call.GetDevice t.id] ∧
      (∀ c ∈ w2.calls.drop w1.calls.length, c.isUpload = false) ∧
      w2.creates = w1.creates ∧ w2.locks = w1.locks ∧ w2.bits = w1.bits := by
  obtain ⟨_, hb, hd, a1, _, hsecond⟩ := GetTexture_some h ht
  refine ⟨_, _, (hsecond device a2 w1).trans (returnCached_hit device r1.aImage a1 w1 t hb hd),
    rfl, rfl, rfl, ?_, rfl, rfl, rfl⟩
  intro c hc
  simp only [List.drop_left, List.mem_singleton] at hc
  subst hc
  rfl

theorem GetTexture_idempotent_witness :
    ∃ r1 w1 t, GetTexture standardEnv 0 remote4x4 false (freshWorld [true] [.locked true 16])
        = .ok r1 w1 ∧ r1.texture = some t ∧
      ∃ r2 w2, GetTexture standardEnv 0 r1.aImage false w1 = .ok r2 w2 ∧ r2.texture = some t ∧
        r2.aImage.backendData = r1.aImage.backendData ∧
        w2.calls = w1.calls ++ [Call.GetDevice t.id] ∧
        (∀ c ∈ w2.calls.drop w1.calls.length, c.isUpload = false) ∧
        w2.creates = w1.creates ∧ w2.locks = w1.locks ∧ w2.bits = w1.bits :=
  ⟨_, _, _, rfl, rfl,
    GetTexture_idempotent standardEnv 0 remote4x4 false (freshWorld [true] [.locked true 16])
      _ _ _ rfl rfl false⟩

/-- C2, as stated, fails.  A 4x4 remote bitmap is converted with device 0
current, on a driver that would let every further call succeed; the call
returns texture 0 of device 0 and caches it.  The next `GetTexture` call on the
same image, with device 1 current, returns `nullptr`, keeps the device-0
texture in the slot, creates nothing (its only call is `GetDevice`), and the
driver's remaining answers are untouched. -/
theorem GetTexture_device_change_counterexample :
    ∃ r1 w1, GetTexture standardEnv 0 remote4x4 false
        (freshWorld [true, true, true] [.locked true 16, .locked true 16]) = .ok r1 w1 ∧
      r1.texture = some (uploaded standardEnv 0 ⟨4, 4⟩ D3DFORMAT.D3DFMT_A8R8G8B8
        (freshWorld [] [])) ∧
      (GetTexture standardEnv 1 r1.aImage false w1).val?.map (fun r => r.texture) = some none ∧
      (GetTexture standardEnv 1 r1.aImage false w1).val?.map (fun r => r.aImage.backendData)
        = some r1.aImage.backendData ∧
      (GetTexture standardEnv 1 r1.aImage false w1).world.calls
        = w1.calls ++ [Call.GetDevice 0] ∧
      (GetTexture standardEnv 1 r1.aImage false w1).world.creates = [true, true] ∧
      (GetTexture standardEnv 1 r1.aImage false w1).world.locks = [.locked true 16] :=
  ⟨_, _, rfl, rfl, rfl, rfl, rfl, rfl, rfl⟩

/-- C2, amended (what a device change does).  If `GetTexture` with `deviceA`
current returned a texture `t`, then `GetTexture` on the same image with a
different device `deviceB` current returns `nullptr`; the slot still holds `t`,
which belongs to `deviceA`; the call issues `GetDevice` on `t` and nothing
else, so no conversion is performed. -/
theorem GetTexture_device_change (env : Env) (deviceA deviceB : Nat) (aImage : Image)
    (aHasAlpha : Bool) (w w1 : World) (r1 : GetTextureResult) (t : IDirect3DTexture9)
    (h : GetTexture env deviceA aImage aHasAlpha w = .ok r1 w1) (ht : r1.texture = some t)
    (hAB : deviceA ≠ deviceB) (a2 : Bool) :
    ∃ r2 w2, GetTexture env deviceB r1.aImage a2 w1 = .ok r2 w2 ∧ r2.texture = none ∧
      r2.aImage.backendData = some { mTexture := some t } ∧ t.dev = deviceA ∧
      w2.calls = w1.calls ++ [Call.GetDevice t.id] ∧
      w2.creates = w1.creates ∧ w2.locks = w1.locks ∧ w2.bits = w1.bits := by
  obtain ⟨_, hb, hd, a1, _, hsecond⟩ := GetTexture_some h ht
  have hstale : t.dev ≠ deviceB := by rw [hd]; exact hAB
  exact ⟨_, _,
    (hsecond deviceB a2 w1).trans (returnCached_stale deviceB r1.aImage a1 w1 t hb hstale),
    rfl, hb, hd, rfl, rfl, rfl, rfl⟩

theorem GetTexture_device_change_witness :
    ∃ r1 w1 t, GetTexture extendedEnv 3 remote4x4 true
        (freshWorld [true, true, true, true] [.locked true 64, .locked true 64]) = .ok r1 w1 ∧
      r1.texture = some t ∧ (3 : Nat) ≠ 5 ∧
      ∃ r2 w2, GetTexture extendedEnv 5 r1.aImage false w1 = .ok r2 w2 ∧ r2.texture = none ∧
        r2.aImage.backendData = some { mTexture := some t } ∧ t.dev = 3 ∧
        w2.calls = w1.calls ++ [Call.GetDevice t.id] ∧
        w2.creates = w1.creates ∧ w2.locks = w1.locks ∧ w2.bits = w1.bits :=
  ⟨_, _, _, rfl, rfl, by decide,
    GetTexture_device_change extendedEnv 3 5 remote4x4 true
      (freshWorld [true, true, true, true] [.locked true 64, .locked true 64])
      _ _ _ rfl rfl (by decide) false⟩

/-- C9 (unsupported frame kinds are rejected).  For every image whose format
is none of `REMOTE_IMAGE_BITMAP`, `CAIRO_SURFACE`, `D3D9_RGB32_TEXTURE`,
whatever its slot holds, `GetTexture` returns `nullptr`, leaves `aHasAlpha` and
the image with its slot as they were, and returns in the world it was called
in: no call has been issued, no driver answer consumed, no byte written. -/
theorem GetTexture_unsupported (env : Env) (device : Nat) (aImage : Image) (aHasAlpha : Bool)
    (w : World)
    (hremote : ∀ i, aImage.data ≠ ImageData.REMOTE_IMAGE_BITMAP i)
    (hcairo : ∀ i, aImage.data ≠ ImageData.CAIRO_SURFACE i)
    (hshared : ∀ i, aImage.data ≠ ImageData.D3D9_RGB32_TEXTURE i) :
    GetTexture env device aImage aHasAlpha w
      = .ok { texture := none, aHasAlpha := aHasAlpha, aImage := aImage } w := by
  unfold GetTexture
  cases hdata : aImage.data with
  | REMOTE_IMAGE_BITMAP i => exact absurd hdata (hremote i)
  | CAIRO_SURFACE i => exact absurd hdata (hcairo i)
  | D3D9_RGB32_TEXTURE i => exact absurd hdata (hshared i)
  | OTHER format => rfl

theorem GetTexture_unsupported_witness :
    (∀ i, unsupportedImage.data ≠ ImageData.REMOTE_IMAGE_BITMAP i) ∧
    (∀ i, unsupportedImage.data ≠ ImageData.CAIRO_SURFACE i) ∧
    (∀ i, unsupportedImage.data ≠ ImageData.D3D9_RGB32_TEXTURE i) ∧
    GetTexture extendedEnv 0 unsupportedImage true (freshWorld [true, true] [.locked true 16])
      = .ok { texture := none, aHasAlpha := true, aImage := unsupportedImage }
          (freshWorld [true, true] [.locked true 16]) :=
  ⟨fun _ h => ImageData.noConfusion h, fun _ h => ImageData.noConfusion h,
    fun _ h => ImageData.noConfusion h,
    GetTexture_unsupported extendedEnv 0 unsupportedImage true
      (freshWorld [true, true] [.locked true 16]) (fun _ h => ImageData.noConfusion h)
      (fun _ h => ImageData.noConfusion h) (fun _ h => ImageData.noConfusion h)⟩

/-- C10 (device affinity of every returned texture).  Whatever the image and
the prior state of its slot, when `GetTexture` returns: a returned texture
belongs to the current device (compared by identity), and if the slot held a
texture of any other device on entry, `nullptr` is returned. -/
theorem GetTexture_device_affinity (env : Env) (device : Nat) (aImage : Image)
    (aHasAlpha : Bool) (w w1 : World) (r : GetTextureResult)
    (h : GetTexture env device aImage aHasAlpha w = .ok r w1) :
    (∀ t, r.texture = some t → t.dev = device) ∧
      (∀ t0, aImage.backendData = some { mTexture := some t0 } → t0.dev ≠ device →
        r.texture = none) := by
  constructor
  · intro t ht
    exact (GetTexture_some h ht).2.2.1
  · intro t0 hb hd
    cases hr : r.texture with
    | none => rfl
    | some t =>
      exfalso
      obtain ⟨_, hb1, hd1, _⟩ := GetTexture_some h hr
      have hkeep : r.aImage.backendData = aImage.backendData :=
        GetTexture_keeps_slot h hb
      rw [hkeep, hb] at hb1
      simp only [Option.some.injEq, TextureD3D9BackendData.mk.injEq] at hb1
      subst hb1
      exact hd hd1

theorem GetTexture_device_affinity_witness :
    ∃ r w1, GetTexture standardEnv 2 staleRemote4x4 false (freshWorld [true] [.locked true 16])
        = .ok r w1 ∧
      (∀ t, r.texture = some t → t.dev = 2) ∧
      (∀ t0, staleRemote4x4.backendData = some { mTexture := some t0 } → t0.dev ≠ 2 →
        r.texture = none) :=
  ⟨_, _, rfl,
    GetTexture_device_affinity standardEnv 2 staleRemote4x4 false
      (freshWorld [true] [.locked true 16]) _ _ rfl⟩

/-! ## The packed uploader: claims C3, C5 -/

/-- C3, as stated, fails.  A 1x3 32-bit bitmap with stride 20 is uploaded on
a standard device; creation and lock succeed and the lock reports the pitch
`2 ^ 31 - 1`, which is at least `width * 4 = 4`.  The offset of row 2,
`Pitch * 2`, does not fit a 32-bit `int` and comes out as `-2`, so the four
bytes of row 2 land on offsets `-2 .. 1` and overwrite the first two bytes of
row 0: the texture byte at `Pitch * 0 + 0` is the source byte at
`aStride * 2 + 2` (value 43), not the source byte at `aStride * 0 + 0`
(value 1). -/
theorem DataToTexture_byte_fidelity_counterexample :
    (freshWorld [true] [.locked true (2 ^ 31 - 1)]).creates.head? = some true ∧
    (freshWorld [true] [.locked true (2 ^ 31 - 1)]).locks.head?
      = some (LockAnswer.locked true (2 ^ 31 - 1)) ∧
    (((1 * 4 : Nat) : Int) ≤ 2 ^ 31 - 1 ∧ (2 ^ 31 - 1 : Int) < 2 ^ 31) ∧
    (DataToTexture standardEnv 0 pixels 20 ⟨1, 3⟩ D3DFORMAT.D3DFMT_A8R8G8B8
        (freshWorld [true] [.locked true (2 ^ 31 - 1)])).val?
      = some (some (uploaded standardEnv 0 ⟨1, 3⟩ D3DFORMAT.D3DFMT_A8R8G8B8 (freshWorld [] []))) ∧
    (DataToTexture standardEnv 0 pixels 20 ⟨1, 3⟩ D3DFORMAT.D3DFMT_A8R8G8B8
        (freshWorld [true] [.locked true (2 ^ 31 - 1)])).world.bits 0
        ((2 ^ 31 - 1) * ((0 : Nat) : Int) + ((0 : Nat) : Int)) = 43 ∧
    pixels (20 * ((0 : Nat) : Int) + ((0 : Nat) : Int)) = 1 ∧
    wrapInt32 ((2 ^ 31 - 1) * ((2 : Nat) : Int)) = -2 := by
  refine ⟨rfl, rfl, by decide, rfl, ?_, by decide, by decide⟩
  decide

/-- C3, amended (byte fidelity of the packed upload, for offsets that fit an
`int`).  For every source buffer, stride, size and format (`D3DFMT_A8` with
`bpp = 1`, `D3DFMT_A8R8G8B8` with `bpp = 4`), on either device class, whenever
the texture creations succeed, the lock succeeds with a non-null pointer and a
row pitch of at least `width * bpp` (`Pitch` is a 32-bit `INT`), and the row
offsets `Pitch * y` and `aStride * y` of every row `y < height` fit a 32-bit
`int`, `DataToTexture` returns a texture of the current device with the
requested size and format, and for every row `y < height` and byte
`x < width * bpp` the texture byte at `Pitch * y + x` is the source byte at
`aStride * y + x`.  The covered bytes depend on nothing else: a second upload,
on any device, in any world, with any other pitch, stride and source buffer
that agrees with the first on the covered bytes (its offsets fitting too),
yields the same covered bytes. -/
theorem DataToTexture_byte_fidelity (env : Env) (aDevice : Nat) (aData : Bytes)
    (aStride : Int) (aSize : gfxIntSize) (aFormat : D3DFORMAT) (bpp : Nat) (w : World)
    (Pitch : Int)
    (hfmt : (aFormat = D3DFORMAT.D3DFMT_A8 ∧ bpp = 1) ∨
      (aFormat = D3DFORMAT.D3DFMT_A8R8G8B8 ∧ bpp = 4))
    (hcreate : w.creates.head? = some true ∧
      (env.isEx aDevice = true → w.creates.tail.head? = some true))
    (hlock : w.locks.head? = some (LockAnswer.locked true Pitch))
    (hpitch : ((aSize.width * bpp : Nat) : Int) ≤ Pitch) (hint : Pitch < 2 ^ 31)
    (hfitP : ∀ y : Nat, y < aSize.height → Pitch * (y : Int) < 2 ^ 31)
    (hfitS : ∀ y : Nat, y < aSize.height →
      -2 ^ 31 ≤ aStride * (y : Int) ∧ aStride * (y : Int) < 2 ^ 31) :
    ∃ texture w1,
      DataToTexture env aDevice aData aStride aSize aFormat w = .ok (some texture) w1 ∧
      texture.dev = aDevice ∧ texture.Width = aSize.width ∧ texture.Height = aSize.height ∧
      texture.Format = aFormat ∧
      (∀ y x : Nat, y < aSize.height → x < aSize.width * bpp →
        w1.bits texture.id (Pitch * (y : Int) + (x : Int))
          = aData (aStride * (y : Int) + (x : Int))) ∧
      ∀ (env2 : Env) (aDevice2 : Nat) (aData2 : Bytes) (aStride2 : Int) (w2 : World)
        (Pitch2 : Int),
        (w2.creates.head? = some true ∧
          (env2.isEx aDevice2 = true → w2.creates.tail.head? = some true)) →
        w2.locks.head? = some (LockAnswer.locked true Pitch2) →
        ((aSize.width * bpp : Nat) : Int) ≤ Pitch2 → Pitch2 < 2 ^ 31 →
        (∀ y : Nat, y < aSize.height → Pitch2 * (y : Int) < 2 ^ 31) →
        (∀ y : Nat, y < aSize.height →
          -2 ^ 31 ≤ aStride2 * (y : Int) ∧ aStride2 * (y : Int) < 2 ^ 31) →
        (∀ y x : Nat, y < aSize.height → x < aSize.width * bpp →
          aData2 (aStride2 * (y : Int) + (x : Int)) = aData (aStride * (y : Int) + (x : Int))) →
        ∃ texture2 w3,
          DataToTexture env2 aDevice2 aData2 aStride2 aSize aFormat w2
            = .ok (some texture2) w3 ∧
          ∀ y x : Nat, y < aSize.height → x < aSize.width * bpp →
            w3.bits texture2.id (Pitch2 * (y : Int) + (x : Int))
              = w1.bits texture.id (Pitch * (y : Int) + (x : Int)) := by
  obtain ⟨texture, w1, hrun, hdev, hW, hH, hF, hrows⟩ :=
    DataToTexture_rows env aDevice aData aStride aSize aFormat bpp w Pitch hfmt hcreate hlock
      hpitch hint hfitP hfitS
  refine ⟨texture, w1, hrun, hdev, hW, hH, hF, hrows, ?_⟩
  intro env2 aDevice2 aData2 aStride2 w2 Pitch2 hcreate2 hlock2 hpitch2 hint2 hfitP2 hfitS2
    hagree
  obtain ⟨texture2, w3, hrun2, _, _, _, _, hrows2⟩ :=
    DataToTexture_rows env2 aDevice2 aData2 aStride2 aSize aFormat bpp w2 Pitch2 hfmt hcreate2
      hlock2 hpitch2 hint2 hfitP2 hfitS2
  refine ⟨texture2, w3, hrun2, ?_⟩
  intro y x hy hx
  rw [hrows2 y x hy hx, hrows y x hy hx, hagree y x hy hx]

theorem DataToTexture_byte_fidelity_witness :
    ∃ texture w1,
      DataToTexture extendedEnv 0 pixels 20 ⟨4, 4⟩ D3DFORMAT.D3DFMT_A8R8G8B8
        (freshWorld [true, true] [.locked true 32]) = .ok (some texture) w1 ∧
      texture.dev = 0 ∧ texture.Width = 4 ∧ texture.Height = 4 ∧
      texture.Format = D3DFORMAT.D3DFMT_A8R8G8B8 ∧
      (∀ y x : Nat, y < 4 → x < 4 * 4 →
        w1.bits texture.id (32 * (y : Int) + (x : Int)) = pixels (20 * (y : Int) + (x : Int))) ∧
      ∀ (env2 : Env) (aDevice2 : Nat) (aData2 : Bytes) (aStride2 : Int) (w2 : World)
        (Pitch2 : Int),
        (w2.creates.head? = some true ∧
          (env2.isEx aDevice2 = true → w2.creates.tail.head? = some true)) →
        w2.locks.head? = some (LockAnswer.locked true Pitch2) →
        ((4 * 4 : Nat) : Int) ≤ Pitch2 → Pitch2 < 2 ^ 31 →
        (∀ y : Nat, y < 4 → Pitch2 * (y : Int) < 2 ^ 31) →
        (∀ y : Nat, y < 4 →
          -2 ^ 31 ≤ aStride2 * (y : Int) ∧ aStride2 * (y : Int) < 2 ^ 31) →
        (∀ y x : Nat, y < 4 → x < 4 * 4 →
          aData2 (aStride2 * (y : Int) + (x : Int)) = pixels (20 * (y : Int) + (x : Int))) →
        ∃ texture2 w3,
          DataToTexture env2 aDevice2 aData2 aStride2 ⟨4, 4⟩ D3DFORMAT.D3DFMT_A8R8G8B8 w2
            = .ok (some texture2) w3 ∧
          ∀ y x : Nat, y < 4 → x < 4 * 4 →
            w3.bits texture2.id (Pitch2 * (y : Int) + (x : Int))
              = w1.bits texture.id (32 * (y : Int) + (x : Int)) :=
  DataToTexture_byte_fidelity extendedEnv 0 pixels 20 ⟨4, 4⟩ D3DFORMAT.D3DFMT_A8R8G8B8 4
    (freshWorld [true, true] [.locked true 32]) 32 (Or.inr ⟨rfl, rfl⟩)
    ⟨rfl, fun _ => rfl⟩ rfl (by decide) (by decide)
    (fun y hy => by have h4 : y < 4 := hy; omega)
    (fun y hy => by have h4 : y < 4 := hy; omega)

/-- C5 fails on the standard-device path when the lock fails.  A standard
device creates the managed texture and then fails `LockRect`; the result of
`LockRect` is not looked at, so `DataToTexture` runs the row loop through the
never-filled `lockedRect` (here the last row lands at offset 0 of whatever it
points to), returns the texture, and `GetTexture` stores it in the slot and
returns it.  On a D3D9Ex device the same failed lock makes `DataToTexture`
return null with nothing stored.  Whatever the never-filled `lockedRect` holds,
the standard-device run does not return null. -/
theorem DataToTexture_standard_lock_failure :
    (DataToTexture standardEnv 0 pixels 20 ⟨4, 4⟩ D3DFORMAT.D3DFMT_A8R8G8B8
        (freshWorld [true] [.failed])).val?
      = some (some (uploaded standardEnv 0 ⟨4, 4⟩ D3DFORMAT.D3DFMT_A8R8G8B8 (freshWorld [] []))) ∧
    (DataToTexture standardEnv 0 pixels 20 ⟨4, 4⟩ D3DFORMAT.D3DFMT_A8R8G8B8
        (freshWorld [true] [.failed])).world.bits 7 0 = pixels 60 ∧
    (GetTexture standardEnv 0 remote4x4 false (freshWorld [true] [.failed])).val?.map
        (fun r => r.aImage.backendData)
      = some (some (TextureD3D9BackendData.mk (some
          (uploaded standardEnv 0 ⟨4, 4⟩ D3DFORMAT.D3DFMT_A8R8G8B8 (freshWorld [] []))))) ∧
    (GetTexture standardEnv 0 remote4x4 false (freshWorld [true] [.failed])).val?.map
        (fun r => r.texture)
      = some (some (uploaded standardEnv 0 ⟨4, 4⟩ D3DFORMAT.D3DFMT_A8R8G8B8 (freshWorld [] []))) ∧
    (DataToTexture extendedEnv 0 pixels 20 ⟨4, 4⟩ D3DFORMAT.D3DFMT_A8R8G8B8
        (freshWorld [true, true] [.failed])).val? = some none ∧
    (GetTexture extendedEnv 0 remote4x4 false (freshWorld [true, true] [.failed])).val?.map
        (fun r => r.aImage.backendData) = some none ∧
    ∀ u : D3DLOCKED_RECT,
      (DataToTexture { standardEnv with uninit := u } 0 pixels 20 ⟨4, 4⟩
        D3DFORMAT.D3DFMT_A8R8G8B8 (freshWorld [true] [.failed])).val? ≠ some none := by
  refine ⟨rfl, ?_, rfl, rfl, rfl, rfl, ?_⟩
  · decide
  · intro u
    cases hu : u.pBits <;>
      simp [DataToTexture, QueryInterface, standardEnv, CreateTexture, freshWorld, LockRect,
        copyRows, hu, Res.val?]

/-! ## The planar uploader: claims C4, C6 -/

theorem copyPlanesAndStore_cases (aImage : PlanarYCbCrImage) (aDevice : Nat) (isD3D9Ex : Bool)
    (mY mCb mCr sY sCb sCr : IDirect3DTexture9) (rY rCb rCr : D3DLOCKED_RECT) (w : World) :
    (∃ w1, copyPlanesAndStore aImage aDevice isD3D9Ex mY mCb mCr sY sCb sCr rY rCb rCr w
        = .crash Fault.nullDeref w1) ∨
    (∃ w1, copyPlanesAndStore aImage aDevice isD3D9Ex mY mCb mCr sY sCb sCr rY rCb rCr w
        = .ok { aImage with
                backendData := some { mYTexture := some mY, mCbTexture := some mCb,
                                      mCrTexture := some mCr } } w1) := by
  unfold copyPlanesAndStore
  simp only
  split
  · exact Or.inl ⟨_, rfl⟩
  · split
    · exact Or.inl ⟨_, rfl⟩
    · split
      · exact Or.inl ⟨_, rfl⟩
      · cases isD3D9Ex
        · exact Or.inr ⟨_, rfl⟩
        · exact Or.inr ⟨_, rfl⟩

theorem copyPlanesAndStore_outcome (aImage : PlanarYCbCrImage) (aDevice : Nat)
    (isD3D9Ex : Bool) (mY mCb mCr sY sCb sCr : IDirect3DTexture9)
    (rY rCb rCr : D3DLOCKED_RECT) (w : World) (f : Nat) (c : List Bool)
    (hc : c.take 3 = [true, true, true]) :
    (∃ w1, copyPlanesAndStore aImage aDevice isD3D9Ex mY mCb mCr sY sCb sCr rY rCb rCr w
        = .ok aImage w1 ∧ w1.failures = f + 1) ∨
    (∃ w1, copyPlanesAndStore aImage aDevice isD3D9Ex mY mCb mCr sY sCb sCr rY rCb rCr w
        = .crash Fault.nullDeref w1) ∨
    (∃ w1 tY tCb tCr,
      copyPlanesAndStore aImage aDevice isD3D9Ex mY mCb mCr sY sCb sCr rY rCb rCr w
        = .ok { aImage with
                backendData := some { mYTexture := some tY, mCbTexture := some tCb,
                                      mCrTexture := some tCr } } w1 ∧
      c.take 3 = [true, true, true]) := by
  rcases copyPlanesAndStore_cases aImage aDevice isD3D9Ex mY mCb mCr sY sCb sCr rY rCb rCr w
    with ⟨w1, h⟩ | ⟨w1, h⟩
  · exact Or.inr (Or.inl ⟨w1, h⟩)
  · exact Or.inr (Or.inr ⟨w1, mY, mCb, mCr, h, hc⟩)

/-- How a run of `AllocateTexturesYCbCr` ends: a reported failure with the image
as it was, a null dereference, or the three textures stored after the three
plane creations succeeded. -/
theorem AllocateTexturesYCbCr_outcome (env : Env) (aImage : PlanarYCbCrImage) (aDevice : Nat) (w : World) :
    (∃ w1, AllocateTexturesYCbCr env aImage aDevice w = .ok aImage w1 ∧
        w1.failures = w.failures + 1) ∨
    (∃ w1, AllocateTexturesYCbCr env aImage aDevice w = .crash Fault.nullDeref w1) ∨
    (∃ w1 tY tCb tCr, AllocateTexturesYCbCr env aImage aDevice w
        = .ok { aImage with
                backendData := some { mYTexture := some tY, mCbTexture := some tCb,
                                      mCrTexture := some tCr } } w1 ∧
        w.creates.take 3 = [true, true, true]) := by
  obtain ⟨calls, creates, locks, nextId, bits, failures⟩ := w
  cases hx : env.isEx aDevice with
  | false =>
    rcases creates with _ | ⟨b1, _ | ⟨b2, _ | ⟨b3, rest⟩⟩⟩
    · left
      simp [AllocateTexturesYCbCr, QueryInterface, hx, CreateTexture, ReportFailure]
    · cases b1
      · left
        simp [AllocateTexturesYCbCr, QueryInterface, hx, CreateTexture, ReportFailure]
      · right; left
        simp [AllocateTexturesYCbCr, QueryInterface, hx, CreateTexture, ReportFailure,
          lockThrough]
    · cases b1
      · left
        simp [AllocateTexturesYCbCr, QueryInterface, hx, CreateTexture, ReportFailure]
      · right; left
        cases b2 <;>
        simp [AllocateTexturesYCbCr, QueryInterface, hx, CreateTexture, ReportFailure,
          lockThrough]
    · cases b1
      · left
        simp [AllocateTexturesYCbCr, QueryInterface, hx, CreateTexture, ReportFailure]
      · cases b2
        · right; left
          cases b3 <;>
          simp [AllocateTexturesYCbCr, QueryInterface, hx, CreateTexture, ReportFailure,
            lockThrough]
        · cases b3
          · right; left
            simp [AllocateTexturesYCbCr, QueryInterface, hx, CreateTexture, ReportFailure,
              lockThrough]
          · simp only [AllocateTexturesYCbCr, QueryInterface, hx, CreateTexture, ReportFailure,
              lockThrough, List.head?_cons, List.tail_cons, Option.isSome_some, ↓reduceIte,
              Bool.not_true, Bool.false_eq_true]
            exact copyPlanesAndStore_outcome _ _ _ _ _ _ _ _ _ _ _ _ _ _ _ rfl
  | true =>
    rcases creates with _ | ⟨b1, _ | ⟨b2, _ | ⟨b3, _ | ⟨b4, _ | ⟨b5, _ | ⟨b6, rest⟩⟩⟩⟩⟩⟩
    · left
      simp [AllocateTexturesYCbCr, QueryInterface, hx, CreateTexture, ReportFailure]
    · left
      cases b1 <;>
      simp [AllocateTexturesYCbCr, QueryInterface, hx, CreateTexture, ReportFailure]
    · left
      cases b1 <;> cases b2 <;>
      simp [AllocateTexturesYCbCr, QueryInterface, hx, CreateTexture, ReportFailure]
    · left
      cases b1 <;> cases b2 <;> cases b3 <;>
      simp [AllocateTexturesYCbCr, QueryInterface, hx, CreateTexture, ReportFailure]
    · left
      cases b1 <;> cases b2 <;> cases b3 <;> cases b4 <;>
      simp [AllocateTexturesYCbCr, QueryInterface, hx, CreateTexture, ReportFailure]
    · left
      cases b1 <;> cases b2 <;> cases b3 <;> cases b4 <;> cases b5 <;>
      simp [AllocateTexturesYCbCr, QueryInterface, hx, CreateTexture, ReportFailure]
    · cases b1 <;> cases b2 <;> cases b3 <;> cases b4 <;> cases b5 <;> cases b6 <;>
      first
      | (left
         simp [AllocateTexturesYCbCr, QueryInterface, hx, CreateTexture, ReportFailure]
         done)
      | (simp only [AllocateTexturesYCbCr, QueryInterface, hx, CreateTexture, ReportFailure,
           List.head?_cons, List.tail_cons, Option.isSome_some, ↓reduceIte, Bool.not_true,
           Bool.false_eq_true, Bool.and_self]
         exact copyPlanesAndStore_outcome _ _ _ _ _ _ _ _ _ _ _ _ _ _ _ rfl)

/-- C4 (all-or-nothing planar upload).  For every planar image, either device
class and every driver behaviour, a run of `AllocateTexturesYCbCr` ends in one
of three ways: it reports a failure and returns with the image as it was; it
stops at a null dereference, which is before `SetBackendData`; or it returns
with backend data stored whose `mYTexture`, `mCbTexture` and `mCrTexture` are
all non-null, and then the three plane creations (the first three
`CreateTexture` answers) all succeeded.  Hence whenever the function returns,
the image is as it was or holds three non-null textures, and if the creation of
any one of the three plane textures fails, a returning run leaves the image as
it was: no partial texture set is stored. -/
theorem AllocateTexturesYCbCr_all_or_nothing (env : Env) (aImage : PlanarYCbCrImage)
    (aDevice : Nat) (w : World) :
    ((∃ w1, AllocateTexturesYCbCr env aImage aDevice w = .ok aImage w1 ∧
          w1.failures = w.failures + 1) ∨
      (∃ w1, AllocateTexturesYCbCr env aImage aDevice w = .crash Fault.nullDeref w1) ∨
      (∃ w1 tY tCb tCr, AllocateTexturesYCbCr env aImage aDevice w
          = .ok { aImage with
                  backendData := some { mYTexture := some tY, mCbTexture := some tCb,
                                        mCrTexture := some tCr } } w1 ∧
          w.creates.take 3 = [true, true, true])) ∧
    (∀ stored w1, AllocateTexturesYCbCr env aImage aDevice w = .ok stored w1 →
      stored = aImage ∨
      ∃ tY tCb tCr, stored =
        { aImage with
          backendData := some { mYTexture := some tY, mCbTexture := some tCb,
                                mCrTexture := some tCr } }) ∧
    (w.creates.take 3 ≠ [true, true, true] →
      ∀ stored w1, AllocateTexturesYCbCr env aImage aDevice w = .ok stored w1 →
        stored = aImage) := by
  have key := AllocateTexturesYCbCr_outcome env aImage aDevice w
  refine ⟨key, ?_, ?_⟩
  · intro stored w1 h
    rcases key with ⟨w2, h2, _⟩ | ⟨w2, h2⟩ | ⟨w2, tY, tCb, tCr, h2, _⟩
    · rw [h2] at h
      simp only [Res.ok.injEq] at h
      exact Or.inl h.1.symm
    · rw [h2] at h
      simp at h
    · rw [h2] at h
      simp only [Res.ok.injEq] at h
      exact Or.inr ⟨tY, tCb, tCr, h.1.symm⟩
  · intro hfail stored w1 h
    rcases key with ⟨w2, h2, _⟩ | ⟨w2, h2⟩ | ⟨w2, tY, tCb, tCr, _, h3⟩
    · rw [h2] at h
      simp only [Res.ok.injEq] at h
      exact h.1.symm
    · rw [h2] at h
      simp at h
    · exact absurd h3 hfail

/-- An instance of each way a run ends: on a D3D9Ex device a failed Cb creation
is reported and the image returned as it was; on a standard device all three
creations and locks succeeding stores three textures. -/
theorem AllocateTexturesYCbCr_all_or_nothing_witness :
    (AllocateTexturesYCbCr extendedEnv planar16 0
        (freshWorld [true, false, true] [])).val?.map (fun i => i.backendData)
      = some planar16.backendData ∧
    (AllocateTexturesYCbCr standardEnv planar16 0 planarWorld).val?.map
        (fun i => i.backendData)
      = some (some { mYTexture := some (planeTexture standardEnv 0 ⟨16, 16⟩ planarWorld 0),
                     mCbTexture := some (planeTexture standardEnv 0 ⟨8, 8⟩ planarWorld 1),
                     mCrTexture := some (planeTexture standardEnv 0 ⟨8, 8⟩ planarWorld 2) }) ∧
    ((freshWorld [true, false, true] []).creates.take 3 ≠ [true, true, true] →
      ∀ stored w1, AllocateTexturesYCbCr extendedEnv planar16 0
          (freshWorld [true, false, true] []) = .ok stored w1 → stored = planar16) :=
  ⟨rfl, rfl,
    (AllocateTexturesYCbCr_all_or_nothing extendedEnv planar16 0
      (freshWorld [true, false, true] [])).2.2⟩

/-- C6, as stated, fails.  On a standard device the three plane textures of a
16x16 / 8x8 image are created and every `LockRect` fails; the results of the
locks are not looked at, so the plane loops run through the never-filled
rectangles, and the three textures are stored on the image although nothing
was written to them: byte 0 of row 0 of the Y texture is still 0, not the
source byte 1 (and likewise for Cb and Cr). -/
theorem AllocateTexturesYCbCr_plane_fidelity_counterexample :
    (freshWorld [true, true, true] [.failed, .failed, .failed]).creates = [true, true, true] ∧
    (AllocateTexturesYCbCr standardEnv planar16 0
        (freshWorld [true, true, true] [.failed, .failed, .failed])).val?.map
        (fun i => i.backendData)
      = some (some { mYTexture := some (planeTexture standardEnv 0 ⟨16, 16⟩ (freshWorld [] []) 0),
                     mCbTexture := some (planeTexture standardEnv 0 ⟨8, 8⟩ (freshWorld [] []) 1),
                     mCrTexture := some (planeTexture standardEnv 0 ⟨8, 8⟩ (freshWorld [] []) 2) }) ∧
    (AllocateTexturesYCbCr standardEnv planar16 0
        (freshWorld [true, true, true] [.failed, .failed, .failed])).world.bits 0 0 = 0 ∧
    planar16.mData.mYChannel (planar16.mData.mYStride * 0 + 0) = 1 ∧
    (AllocateTexturesYCbCr standardEnv planar16 0
        (freshWorld [true, true, true] [.failed, .failed, .failed])).world.bits 1 0 = 0 ∧
    planar16.mData.mCbChannel (planar16.mData.mCbCrStride * 0 + 0) = 1 ∧
    (AllocateTexturesYCbCr standardEnv planar16 0
        (freshWorld [true, true, true] [.failed, .failed, .failed])).world.bits 2 0 = 0 ∧
    planar16.mData.mCrChannel (planar16.mData.mCbCrStride * 0 + 0) = 1 := by
  refine ⟨rfl, rfl, ?_, by decide, ?_, by decide, ?_, by decide⟩ <;> decide

/-- C6, amended (plane fidelity and independence, for locks that succeed).  For
every planar image, on either device class, whenever the texture creations
succeed and the three locks succeed with non-null pointers and pitches of at
least a row, the call stores three textures `tY`, `tCb`, `tCr` with pairwise
distinct identities, all of the single-channel format `D3DFMT_L8`, `tY` of size
`mYSize` and `tCb`, `tCr` of size `mCbCrSize`, and row `h` of each holds the
first `width` bytes found at offset `stride * h` of its own channel.  Consequently, for any other image of
the same geometry uploaded in the same world, every plane whose covered source
bytes are the same gets the same texture with the same covered bytes, whatever
the other planes hold. -/
theorem AllocateTexturesYCbCr_plane_fidelity (env : Env) (aImage : PlanarYCbCrImage)
    (aDevice : Nat) (w : World) (pY pCb pCr : Int) (restC : List Bool)
    (restL : List LockAnswer)
    (hcreate : w.creates = true :: true :: true :: restC)
    (hex : env.isEx aDevice = true → ∃ rest, restC = true :: true :: true :: rest)
    (hlock : w.locks = LockAnswer.locked true pY :: LockAnswer.locked true pCb ::
      LockAnswer.locked true pCr :: restL)
    (hpY : (aImage.mData.mYSize.width : Int) ≤ pY)
    (hpCb : (aImage.mData.mCbCrSize.width : Int) ≤ pCb)
    (hpCr : (aImage.mData.mCbCrSize.width : Int) ≤ pCr) :
    ∃ stored w1 tY tCb tCr,
      AllocateTexturesYCbCr env aImage aDevice w = .ok stored w1 ∧
      stored.mData = aImage.mData ∧
      stored.backendData
        = some { mYTexture := some tY, mCbTexture := some tCb, mCrTexture := some tCr } ∧
      tY.id ≠ tCb.id ∧ tY.id ≠ tCr.id ∧ tCb.id ≠ tCr.id ∧
      tY.dev = aDevice ∧ tCb.dev = aDevice ∧ tCr.dev = aDevice ∧
      tY.Format = D3DFORMAT.D3DFMT_L8 ∧ tCb.Format = D3DFORMAT.D3DFMT_L8 ∧
      tCr.Format = D3DFORMAT.D3DFMT_L8 ∧
      tY.Width = aImage.mData.mYSize.width ∧ tY.Height = aImage.mData.mYSize.height ∧
      tCb.Width = aImage.mData.mCbCrSize.width ∧ tCb.Height = aImage.mData.mCbCrSize.height ∧
      tCr.Width = aImage.mData.mCbCrSize.width ∧ tCr.Height = aImage.mData.mCbCrSize.height ∧
      (∀ h x : Nat, h < aImage.mData.mYSize.height → x < aImage.mData.mYSize.width →
        w1.bits tY.id (pY * (h : Int) + (x : Int))
          = aImage.mData.mYChannel (aImage.mData.mYStride * (h : Int) + (x : Int))) ∧
      (∀ h x : Nat, h < aImage.mData.mCbCrSize.height → x < aImage.mData.mCbCrSize.width →
        w1.bits tCb.id (pCb * (h : Int) + (x : Int))
          = aImage.mData.mCbChannel (aImage.mData.mCbCrStride * (h : Int) + (x : Int))) ∧
      (∀ h x : Nat, h < aImage.mData.mCbCrSize.height → x < aImage.mData.mCbCrSize.width →
        w1.bits tCr.id (pCr * (h : Int) + (x : Int))
          = aImage.mData.mCrChannel (aImage.mData.mCbCrStride * (h : Int) + (x : Int))) ∧
      ∀ other : PlanarYCbCrImage,
        other.mData.mYSize = aImage.mData.mYSize →
        other.mData.mCbCrSize = aImage.mData.mCbCrSize →
        other.mData.mYStride = aImage.mData.mYStride →
        other.mData.mCbCrStride = aImage.mData.mCbCrStride →
        ∃ stored2 w2 uY uCb uCr,
          AllocateTexturesYCbCr env other aDevice w = .ok stored2 w2 ∧
          stored2.backendData
            = some { mYTexture := some uY, mCbTexture := some uCb, mCrTexture := some uCr } ∧
          ((∀ h x : Nat, h < aImage.mData.mYSize.height → x < aImage.mData.mYSize.width →
              other.mData.mYChannel (aImage.mData.mYStride * (h : Int) + (x : Int))
                = aImage.mData.mYChannel (aImage.mData.mYStride * (h : Int) + (x : Int))) →
            uY = tY ∧
            ∀ h x : Nat, h < aImage.mData.mYSize.height → x < aImage.mData.mYSize.width →
              w2.bits uY.id (pY * (h : Int) + (x : Int))
                = w1.bits tY.id (pY * (h : Int) + (x : Int))) ∧
          ((∀ h x : Nat, h < aImage.mData.mCbCrSize.height → x < aImage.mData.mCbCrSize.width →
              other.mData.mCbChannel (aImage.mData.mCbCrStride * (h : Int) + (x : Int))
                = aImage.mData.mCbChannel (aImage.mData.mCbCrStride * (h : Int) + (x : Int))) →
            uCb = tCb ∧
            ∀ h x : Nat, h < aImage.mData.mCbCrSize.height → x < aImage.mData.mCbCrSize.width →
              w2.bits uCb.id (pCb * (h : Int) + (x : Int))
                = w1.bits tCb.id (pCb * (h : Int) + (x : Int))) ∧
          ((∀ h x : Nat, h < aImage.mData.mCbCrSize.height → x < aImage.mData.mCbCrSize.width →
              other.mData.mCrChannel (aImage.mData.mCbCrStride * (h : Int) + (x : Int))
                = aImage.mData.mCrChannel (aImage.mData.mCbCrStride * (h : Int) + (x : Int))) →
            uCr = tCr ∧
            ∀ h x : Nat, h < aImage.mData.mCbCrSize.height → x < aImage.mData.mCbCrSize.width →
              w2.bits uCr.id (pCr * (h : Int) + (x : Int))
                = w1.bits tCr.id (pCr * (h : Int) + (x : Int))) := by
  obtain ⟨w1, hrun, hY, hCb, hCr⟩ :=
    AllocateTexturesYCbCr_planes env aImage aDevice w pY pCb pCr restC restL hcreate hex hlock
      hpY hpCb hpCr
  refine ⟨_, w1, _, _, _, hrun, rfl, rfl, ?_, ?_, ?_, rfl, rfl, rfl, rfl, rfl, rfl, rfl, rfl,
    rfl, rfl, rfl, rfl, hY, ?_, ?_, ?_⟩
  · simp [planeTexture]
  · simp [planeTexture]
  · simp [planeTexture]
  · simpa [planeTexture] using hCb
  · simpa [planeTexture] using hCr
  · intro other hsY hsC hstY hstC
    obtain ⟨w2, hrun2, hY2, hCb2, hCr2⟩ :=
      AllocateTexturesYCbCr_planes env other aDevice w pY pCb pCr restC restL hcreate hex hlock
        (by rw [hsY]; exact hpY) (by rw [hsC]; exact hpCb) (by rw [hsC]; exact hpCr)
    rw [hsY, hstY] at hY2
    rw [hsC, hstC] at hCb2 hCr2
    refine ⟨_, w2, _, _, _, hrun2, rfl, ?_, ?_, ?_⟩
    · intro hsame
      refine ⟨by rw [hsY], ?_⟩
      intro h x hh hx
      show w2.bits (w.nextId + 0) _ = w1.bits (w.nextId + 0) _
      rw [Nat.add_zero, hY2 h x hh hx, hY h x hh hx, hsame h x hh hx]
    · intro hsame
      refine ⟨by rw [hsC], ?_⟩
      intro h x hh hx
      show w2.bits (w.nextId + 1) _ = w1.bits (w.nextId + 1) _
      rw [hCb2 h x hh hx, hCb h x hh hx, hsame h x hh hx]
    · intro hsame
      refine ⟨by rw [hsC], ?_⟩
      intro h x hh hx
      show w2.bits (w.nextId + 2) _ = w1.bits (w.nextId + 2) _
      rw [hCr2 h x hh hx, hCr h x hh hx, hsame h x hh hx]

theorem AllocateTexturesYCbCr_plane_fidelity_witness :
    ∃ stored w1 tY tCb tCr,
      AllocateTexturesYCbCr extendedEnv planar16 0 planarWorldEx = .ok stored w1 ∧
      stored.mData = planar16.mData ∧
      stored.backendData
        = some { mYTexture := some tY, mCbTexture := some tCb, mCrTexture := some tCr } ∧
      tY.id ≠ tCb.id ∧ tY.id ≠ tCr.id ∧ tCb.id ≠ tCr.id ∧
      tY.dev = 0 ∧ tCb.dev = 0 ∧ tCr.dev = 0 ∧
      tY.Format = D3DFORMAT.D3DFMT_L8 ∧ tCb.Format = D3DFORMAT.D3DFMT_L8 ∧
      tCr.Format = D3DFORMAT.D3DFMT_L8 ∧
      tY.Width = planar16.mData.mYSize.width ∧ tY.Height = planar16.mData.mYSize.height ∧
      tCb.Width = planar16.mData.mCbCrSize.width ∧ tCb.Height = planar16.mData.mCbCrSize.height ∧
      tCr.Width = planar16.mData.mCbCrSize.width ∧ tCr.Height = planar16.mData.mCbCrSize.height ∧
      (∀ h x : Nat, h < planar16.mData.mYSize.height → x < planar16.mData.mYSize.width →
        w1.bits tY.id ((16 : Int) * (h : Int) + (x : Int))
          = planar16.mData.mYChannel (planar16.mData.mYStride * (h : Int) + (x : Int))) ∧
      (∀ h x : Nat, h < planar16.mData.mCbCrSize.height → x < planar16.mData.mCbCrSize.width →
        w1.bits tCb.id ((32 : Int) * (h : Int) + (x : Int))
          = planar16.mData.mCbChannel (planar16.mData.mCbCrStride * (h : Int) + (x : Int))) ∧
      (∀ h x : Nat, h < planar16.mData.mCbCrSize.height → x < planar16.mData.mCbCrSize.width →
        w1.bits tCr.id ((8 : Int) * (h : Int) + (x : Int))
          = planar16.mData.mCrChannel (planar16.mData.mCbCrStride * (h : Int) + (x : Int))) ∧
      ∀ other : PlanarYCbCrImage,
        other.mData.mYSize = planar16.mData.mYSize →
        other.mData.mCbCrSize = planar16.mData.mCbCrSize →
        other.mData.mYStride = planar16.mData.mYStride →
        other.mData.mCbCrStride = planar16.mData.mCbCrStride →
        ∃ stored2 w2 uY uCb uCr,
          AllocateTexturesYCbCr extendedEnv other 0 planarWorldEx = .ok stored2 w2 ∧
          stored2.backendData
            = some { mYTexture := some uY, mCbTexture := some uCb, mCrTexture := some uCr } ∧
          ((∀ h x : Nat, h < planar16.mData.mYSize.height → x < planar16.mData.mYSize.width →
              other.mData.mYChannel (planar16.mData.mYStride * (h : Int) + (x : Int))
                = planar16.mData.mYChannel (planar16.mData.mYStride * (h : Int) + (x : Int))) →
            uY = tY ∧
            ∀ h x : Nat, h < planar16.mData.mYSize.height → x < planar16.mData.mYSize.width →
              w2.bits uY.id ((16 : Int) * (h : Int) + (x : Int))
                = w1.bits tY.id ((16 : Int) * (h : Int) + (x : Int))) ∧
          ((∀ h x : Nat, h < planar16.mData.mCbCrSize.height → x < planar16.mData.mCbCrSize.width →
              other.mData.mCbChannel (planar16.mData.mCbCrStride * (h : Int) + (x : Int))
                = planar16.mData.mCbChannel (planar16.mData.mCbCrStride * (h : Int) + (x : Int))) →
            uCb = tCb ∧
            ∀ h x : Nat, h < planar16.mData.mCbCrSize.height → x < planar16.mData.mCbCrSize.width →
              w2.bits uCb.id ((32 : Int) * (h : Int) + (x : Int))
                = w1.bits tCb.id ((32 : Int) * (h : Int) + (x : Int))) ∧
          ((∀ h x : Nat, h < planar16.mData.mCbCrSize.height → x < planar16.mData.mCbCrSize.width →
              other.mData.mCrChannel (planar16.mData.mCbCrStride * (h : Int) + (x : Int))
                = planar16.mData.mCrChannel (planar16.mData.mCbCrStride * (h : Int) + (x : Int))) →
            uCr = tCr ∧
            ∀ h x : Nat, h < planar16.mData.mCbCrSize.height → x < planar16.mData.mCbCrSize.width →
              w2.bits uCr.id ((8 : Int) * (h : Int) + (x : Int))
                = w1.bits tCr.id ((8 : Int) * (h : Int) + (x : Int))) :=
  AllocateTexturesYCbCr_plane_fidelity extendedEnv planar16 0 planarWorldEx 16 32 8
    [true, true, true] [] rfl (fun _ => ⟨[], rfl⟩) rfl (by decide) (by decide) (by decide)

/-- The null dereference of the standard-device path, on an instance.  On a
standard device the Y texture is created and the Cb creation fails; the result
of the Cb and Cr creations is not stored in `hr`, so no failure is reported and
the function goes on to lock the three textures: it locks Y and then
dereferences the null `mCbTexture`.  On a D3D9Ex device the same failure is
reported, the function returns, and the slot stays empty. -/
theorem AllocateTexturesYCbCr_standard_chroma_failure :
    (AllocateTexturesYCbCr standardEnv planar16 0
        (freshWorld [true, false, true] [.locked true 16, .locked true 8, .locked true 8])).fault?
      = some Fault.nullDeref ∧
    (AllocateTexturesYCbCr standardEnv planar16 0
        (freshWorld [true, false, true] [.locked true 16, .locked true 8, .locked true 8])).world.failures
      = 0 ∧
    (AllocateTexturesYCbCr standardEnv planar16 0
        (freshWorld [true, false, true] [.locked true 16, .locked true 8, .locked true 8])).world.calls
      = [Call.QueryInterface 0,
         Call.CreateTexture 0 16 16 1 0 D3DFORMAT.D3DFMT_L8 D3DPOOL.D3DPOOL_MANAGED none,
         Call.CreateTexture 0 8 8 1 0 D3DFORMAT.D3DFMT_L8 D3DPOOL.D3DPOOL_MANAGED none,
         Call.CreateTexture 0 8 8 1 0 D3DFORMAT.D3DFMT_L8 D3DPOOL.D3DPOOL_MANAGED none,
         Call.LockRect 0] ∧
    (AllocateTexturesYCbCr extendedEnv planar16 0
        (freshWorld [true, false, true] [.locked true 16, .locked true 8, .locked true 8])).val?.map
        (fun i => i.backendData) = some none ∧
    (AllocateTexturesYCbCr extendedEnv planar16 0
        (freshWorld [true, false, true] [.locked true 16, .locked true 8, .locked true 8])).world.failures
      = 1 :=
  ⟨rfl, rfl, rfl, rfl, rfl⟩

/-! ## The shared-surface opener: claim C8 -/

/-- C8, as stated, fails.  In a build without assertions a descriptor of format
`D3DFMT_A8R8G8B8` is not rejected: `OpenSharedTexture` issues `CreateTexture`
(with the format `D3DFMT_X8R8G8B8` it always passes) and returns the texture
the driver opens. -/
theorem OpenSharedTexture_release_counterexample :
    standardEnv.debug = false ∧ argbDesc.Format ≠ D3DFORMAT.D3DFMT_X8R8G8B8 ∧
    (OpenSharedTexture standardEnv argbDesc 9 0 (freshWorld [true] [])).val?
      = some (some { id := 0, dev := 0, Width := 4, Height := 4,
                     Usage := D3DUSAGE_RENDERTARGET, Format := D3DFORMAT.D3DFMT_X8R8G8B8,
                     Pool := D3DPOOL.D3DPOOL_DEFAULT, shareHandle := some 9 }) ∧
    (OpenSharedTexture standardEnv argbDesc 9 0 (freshWorld [true] [])).world.calls
      = [Call.CreateTexture 0 4 4 1 D3DUSAGE_RENDERTARGET D3DFORMAT.D3DFMT_X8R8G8B8
          D3DPOOL.D3DPOOL_DEFAULT (some 9)] :=
  ⟨rfl, by decide, rfl, rfl⟩

/-- C8, amended (the precondition is a debug assertion).  In a build where
`MOZ_ASSERT` is compiled in, for every descriptor whose format is not
`D3DFMT_X8R8G8B8`, `OpenSharedTexture` stops at the assertion: no texture is
returned and the world is the one it was called in, so no device call has been
issued. -/
theorem OpenSharedTexture_asserts_format (env : Env) (aDesc : D3DSURFACE_DESC)
    (aShareHandle aDevice : Nat) (w : World) (hdebug : env.debug = true)
    (hfmt : aDesc.Format ≠ D3DFORMAT.D3DFMT_X8R8G8B8) :
    OpenSharedTexture env aDesc aShareHandle aDevice w = .crash Fault.assertion w ∧
      (OpenSharedTexture env aDesc aShareHandle aDevice w).val? = none ∧
      (OpenSharedTexture env aDesc aShareHandle aDevice w).world.calls = w.calls := by
  have h : OpenSharedTexture env aDesc aShareHandle aDevice w = .crash Fault.assertion w := by
    simp [OpenSharedTexture, MOZ_ASSERT, hdebug, hfmt]
  rw [h]
  exact ⟨rfl, rfl, rfl⟩

theorem OpenSharedTexture_asserts_format_witness :
    extendedEnv.debug = true ∧ argbDesc.Format ≠ D3DFORMAT.D3DFMT_X8R8G8B8 ∧
    OpenSharedTexture extendedEnv argbDesc 9 0 (freshWorld [true] [])
      = .crash Fault.assertion (freshWorld [true] []) ∧
    (OpenSharedTexture extendedEnv argbDesc 9 0 (freshWorld [true] [])).val? = none ∧
    (OpenSharedTexture extendedEnv argbDesc 9 0 (freshWorld [true] [])).world.calls
      = (freshWorld [true] []).calls :=
  ⟨rfl, by decide,
    OpenSharedTexture_asserts_format extendedEnv argbDesc 9 0 (freshWorld [true] []) rfl
      (by decide)⟩

/-! ## Binary32 rounding -/

end ImageLayerD3D9
